import Mathlib

/-!
# jiashaoying/daemon: a shallow embedding of the backend abstraction layer

The Go package manages a service through one of three backends (systemd, System V init,
supervisord).  The embedding keeps the code's structure:

* `config`, the `With*` options, `defaultConfig`, `setupConfig`, `New` (daemon.go);
* `check`, `newDaemon`, `checkPrivileges`, `executablePath`, `pathOrFileIsExist` (daemon.go);
* the life-cycle methods of `systemd`, `systemv` and `supervisord`.

Everything outside the package is an explicit input:

* the file system is a map from path strings to nodes, changed only by the package's own
  calls (`os.OpenFile`, `os.Create`, `os.MkdirAll`, `os.Remove`, template execution);
  paths are compared as written and `os.Stat` succeeds exactly on the paths that name a
  node;
* external commands (`ps`, `which`, `id`, `systemctl`, `service`, `chkconfig`, `chown`,
  `supervisorctl`) are answered by `Env.exec`, which threads an abstract manager state;
  they do not touch the paths the package manages;
* whether a file can be opened, written or removed, or a directory made, is answered by
  `Env` too;
* the constant templates always parse, and `file.Close()` does not fail;
* every call that can fail is recorded, with its outcome, in the world's event log.
-/

namespace GoDaemon

/-! ## Errors -/

/-- The sentinel errors of daemon.go, an underlying I/O or exec error, and the wrapping
done by `fmt.Errorf("...: %w", err)`. -/
inductive Err where
  | errUnsupportedSystem
  | errRootPrivileges
  | errAlreadyInstalled
  | errNotInstalled
  | errAlreadyRunning
  | errAlreadyStopped
  | errMissExecValue
  | errConfigIsNil
  | os (what : String)
  | wrap (msg : String) (inner : Err)
  deriving DecidableEq

/-- Go's `errors.Is(e, target)`: `e` or one of the errors it wraps equals `target`. -/
def Err.is : Err → Err → Bool
  | Err.wrap msg inner, t => decide (Err.wrap msg inner = t) || Err.is inner t
  | e, t => decide (e = t)

/-- The deferred `if err != nil { err = fmt.Errorf(msg + ": %w", err) }`. -/
def wrapErr (msg : String) : Option Err → Option Err
  | none => none
  | some e => some (Err.wrap msg e)

/-! ## Text helpers (models of the Go standard library calls the package makes) -/

/-- Go's `unicode.IsSpace`. -/
def isSpace (c : Char) : Bool :=
  c = '\t' || c = '\n' || c.toNat = 0x0B || c.toNat = 0x0C || c = '\r' || c = ' ' ||
  c.toNat = 0x85 || c.toNat = 0xA0 || c.toNat = 0x1680 ||
  (0x2000 ≤ c.toNat && c.toNat ≤ 0x200A) ||
  c.toNat = 0x2028 || c.toNat = 0x2029 || c.toNat = 0x202F || c.toNat = 0x205F ||
  c.toNat = 0x3000

/-- Go's `strings.TrimSpace` on a list of characters. -/
def trimSpace (s : List Char) : List Char :=
  ((s.dropWhile isSpace).reverse.dropWhile isSpace).reverse

/-- ASCII digit test, the class `[0-9]` of Go's regexp and the digits of `ParseUint`. -/
def isDigit (c : Char) : Bool := '0' ≤ c && c ≤ '9'

/-- Value of a run of decimal digits, most significant first; `acc` is the value so far. -/
def digitsValue : Nat → List Char → Option Nat
  | acc, [] => some acc
  | acc, c :: cs => if isDigit c then digitsValue (acc * 10 + (c.toNat - '0'.toNat)) cs else none

/-- Go's `strconv.ParseUint(s, 10, 32)`: a non-empty run of decimal digits whose value
fits 32 bits; anything else is a parse error. -/
def parseUint32 (s : List Char) : Option Nat :=
  match s with
  | [] => none
  | _ => match digitsValue 0 s with
    | some v => if v < 2 ^ 32 then some v else none
    | none => none

/-- The leftmost-first match of the regexp `(a1|a2|...)` whose alternatives are literals:
at the first position where some alternative matches, the first such alternative. -/
def findAlt (alts : List (List Char)) : List Char → Option (List Char)
  | [] => alts.find? (fun a => a.isPrefixOf [])
  | c :: cs =>
    match alts.find? (fun a => a.isPrefixOf (c :: cs)) with
    | some a => some a
    | none => findAlt alts cs

/-- Go's `Regexp.FindString` for a regexp of literal alternatives: the empty string when
there is no match. -/
def findString (alts : List String) (s : String) : String :=
  match findAlt (alts.map String.toList) s.toList with
  | some a => String.mk a
  | none => ""

/-- Go's `Regexp.MatchString` for a regexp of literal alternatives: one of them occurs. -/
def matchAlts (alts : List String) (s : String) : Bool :=
  (findAlt (alts.map String.toList) s.toList).isSome

/-- Go's `regexp.MatchString(lit, s)` for a literal pattern: `lit` occurs in `s`. -/
def matchLiteral (lit : String) (s : String) : Bool :=
  matchAlts [lit] s

/-- The capture group of the leftmost match of `lit([0-9]+)`: at the first position where
`lit` is followed by a digit, the longest run of digits after it. -/
def findDigitsAfter (lit : List Char) : List Char → Option (List Char)
  | [] => none
  | c :: cs =>
    if lit.isPrefixOf (c :: cs) && (((c :: cs).drop lit.length).head?.map isDigit).getD false
    then some (((c :: cs).drop lit.length).takeWhile isDigit)
    else findDigitsAfter lit cs

/-- Go's `Regexp.FindStringSubmatch` for `lit([0-9]+)`, reduced to what the callers use:
`some digits` when `len(data) > 1` (then `data[1] = digits`), `none` otherwise. -/
def findSubmatchDigits (lit : String) (s : String) : Option String :=
  (findDigitsAfter lit.toList s.toList).map String.mk

/-- Split a list of characters at every `/`. -/
def splitSlash : List Char → List (List Char)
  | [] => [[]]
  | c :: cs =>
    match splitSlash cs with
    | [] => [[]]
    | h :: t => if c = '/' then [] :: h :: t else (c :: h) :: t

/-- One step of `path.Clean` on the stack of kept elements (most recent first). -/
def cleanStep (rooted : Bool) (stack : List (List Char)) (elem : List Char) : List (List Char) :=
  if elem = [] || elem = ['.'] then stack
  else if elem = ['.', '.'] then
    match stack with
    | [] => if rooted then [] else [elem]
    | top :: rest => if top = ['.', '.'] then elem :: top :: rest else rest
  else elem :: stack

/-- Go's `path.Clean` on characters: collapse slashes, drop `.` elements, resolve inner
`..` elements, drop `..` at the root; the empty result is `.`. -/
def cleanChars (p : List Char) : List Char :=
  let rooted := p.head? = some '/'
  let kept := ((splitSlash p).foldl (cleanStep rooted) []).reverse
  let body := List.intercalate ['/'] kept
  if rooted then '/' :: body else if body = [] then ['.'] else body

/-- Go's `path.Base`: the last element of the path, trailing slashes removed; `.` for
the empty path and `/` for a path of slashes only. -/
def pathBase (p : String) : String :=
  if p = "" then "."
  else match ((splitSlash p.toList).filter (fun e => e ≠ [])).getLast? with
    | some e => String.mk e
    | none => "/"

/-- The part of the path up to and including the last slash (`path.Split`'s `dir`). -/
def splitDir (p : List Char) : List Char :=
  (p.reverse.dropWhile (fun c => c ≠ '/')).reverse

/-- Go's `path.Dir`: `Clean` of everything up to the last slash. -/
def pathDir (p : String) : String :=
  String.mk (cleanChars (splitDir p.toList))

/-! ## The service specification and its options (daemon.go) -/

/-- The `config` struct of daemon.go. -/
structure config where
  Description : String
  Name : String
  Exec : String
  Args : String
  WorkDir : String
  Dependencies : String
  User : String
  Group : String
  LogFile : String
  PidFile : String
  LockFile : String
  deriving DecidableEq

/-- The options a caller can build: each `With*` constructor of daemon.go. -/
inductive Configurator where
  | WithDescription (des : String)
  | WithName (name : String)
  | WithExec (exec : String)
  | WithArgs (args : String)
  | WithWorkDir (workDir : String)
  | WithDependencies (deps : String)
  | WithUser (user : String)
  | WithGroup (group : String)
  | WithLogFile (logFile : String)
  | WithPidFile (pidFile : String)
  | WithLockFile (lockFile : String)
  deriving DecidableEq

/-- The body of each option's closure: `Option.apply(c)`. -/
def Configurator.apply : Configurator → config → config
  | WithDescription des, c => { c with Description := des }
  | WithName name, c => { c with Name := name }
  | WithExec exec, c => { c with Exec := exec }
  | WithArgs args, c => { c with Args := args }
  | WithWorkDir workDir, c => { c with WorkDir := workDir }
  | WithDependencies deps, c => { c with Dependencies := deps }
  | WithUser user, c => { c with User := user }
  | WithGroup group, c => { c with Group := group }
  | WithLogFile logFile, c => { c with LogFile := logFile }
  | WithPidFile pidFile, c => { c with PidFile := pidFile }
  | WithLockFile lockFile, c => { c with LockFile := lockFile }

def defaultUser : String := "root"

def defaultGroup : String := "root"

/-- The format `defaultDescription` applied: `fmt.Sprintf("manage the %s daemon", name)`. -/
def defaultDescription (name : String) : String := "manage the " ++ name ++ " daemon"

/-- The format `defaultLogFile` applied: `fmt.Sprintf("/var/log/%s/%s.log", name, name)`. -/
def defaultLogFile (name : String) : String := "/var/log/" ++ name ++ "/" ++ name ++ ".log"

/-- The format `defaultPidFile` applied: `fmt.Sprintf("/var/run/%s.pid", name)`. -/
def defaultPidFile (name : String) : String := "/var/run/" ++ name ++ ".pid"

/-- The format `defaultLockFile` applied: `fmt.Sprintf("/var/lock/subsys/%s.lock", name)`. -/
def defaultLockFile (name : String) : String := "/var/lock/subsys/" ++ name ++ ".lock"

/-- Go's `defaultConfig`; `absArgs0` is the result of `filepath.Abs(os.Args[0])`, `none`
when that call fails (the function then returns the nil pointer). -/
def defaultConfig (absArgs0 : Option String) : Option config :=
  match absArgs0 with
  | none => none
  | some p =>
    let name := pathBase p
    some
      { Description := defaultDescription name
        Name := name
        Exec := p
        Args := ""
        WorkDir := pathDir p
        Dependencies := ""
        User := defaultUser
        Group := defaultGroup
        LogFile := defaultLogFile name
        PidFile := defaultPidFile name
        LockFile := defaultLockFile name }

/-- Go's `setupConfig`: the error it returns and the draft after the call (`none` is the
nil pointer). -/
def setupConfig (conf : Option config) : Option Err × Option config :=
  match conf with
  | none => (some Err.errConfigIsNil, none)
  | some c =>
    if c.Exec = "" then (some Err.errMissExecValue, some c)
    else
      let c1 := if c.Name = "" then { c with Name := pathBase c.Exec } else c
      let c2 := if c1.WorkDir = "" then { c1 with WorkDir := pathDir c1.Exec } else c1
      (none, some c2)

/-- The loop `for _, op := range options { op.apply(conf) }` on a non-nil draft. -/
def applyOptions (options : List Configurator) (c : config) : config :=
  options.foldl (fun acc op => op.apply acc) c

/-! ## Templates -/

/-- The line break that the `if .Dependencies` block of the unit and init-script templates
emits: the text between `}}` of the `if` and `{{$deps = ...}}` is a newline, and it is
rendered only when the branch is taken. -/
def depsBreak (c : config) : String :=
  if c.Dependencies = "" then "" else "\n"

/-- The value of `$deps` after the `if` block of `systemdScript`. -/
def systemdDeps (c : config) : String :=
  if c.Dependencies = "" then
    "network-online.target local-fs.target time-sync.target nss-lookup.target"
  else c.Dependencies

/-- The value of `$deps` after the `if` block of `systemvScript`. -/
def systemvDeps (c : config) : String :=
  if c.Dependencies = "" then "$network $time $named $local_fs" else c.Dependencies

/-- The template `systemdScript` executed on `c` (text/template: `{{-` trims the white space before it). -/
def systemdScript (c : config) : String :=
  String.join
    [ "[Unit]\n",
      "Description=", c.Description, depsBreak c, "\n",
      "Requires=", systemdDeps c, "\n",
      "After=", systemdDeps c, "\n",
      "\n",
      "[Service]\n",
      "User=", c.User, "\n",
      "StartLimitInterval=5\n",
      "StartLimitBurst=10\n",
      "WorkingDirectory=", c.WorkDir, "\n",
      "PIDFile=/var/run/", c.Name, ".pid\n",
      "ExecStartPre=/bin/rm -f /var/run/", c.Name, ".pid\n",
      "ExecStart=", c.Exec, " ", c.Args, "\n",
      "Restart=on-failure\n",
      "RestartSec=30\n",
      "\n",
      "[Install]\n",
      "WantedBy=default.target\n" ]

/-- The template `logRoateConf` executed on `c`. -/
def logRoateConf (c : config) : String :=
  String.join
    [ "/var/log/", c.Name, "/", c.Name, ".log \x7b\n",
      "\tcopytruncate\n",
      "    daily\n",
      "    rotate 10\n",
      "    missingok\n",
      "    notifempty\n",
      "    dateext\n",
      "\tdateformat %Y%m%d\n",
      "    compress\n",
      "    delaycompress\n",
      "\tnotifempty\n",
      "\tnomail\n",
      "\tnoolddir\n",
      "\x7d" ]

/-- The template `systemvScript` executed on `c`. -/
def systemvScript (c : config) : String :=
  String.join
    [ "#! /bin/sh\n",
      "#\n",
      "#       /etc/rc.d/init.d/", c.Name, "\n",
      "#\n",
      "#       Starts ", c.Name, " as a daemon\n",
      "#\n",
      "# chkconfig: 2345 87 17\n",
      "# description: ", c.Description, "\n",
      "\n",
      depsBreak c, "\n",
      "### BEGIN INIT INFO\n",
      "# Provides: ", c.Name, "\n",
      "# Required-Start: ", systemvDeps c, "\n",
      "# Required-Stop: ", systemvDeps c, "\n",
      "# Default-Start: 2 3 4 5\n",
      "# Default-Stop: 0 1 6\n",
      "# Short-Description: start and stop ", c.Name, ".\n",
      "# Description: ", c.Description, "\n",
      "### END INIT INFO\n",
      "\n",
      "#\n",
      "# Source function library.\n",
      "#\n",
      "if [ -f /etc/rc.d/init.d/functions ]; then\n",
      "    . /etc/rc.d/init.d/functions\n",
      "fi\n",
      "exec=\"", c.Exec, "\"\n",
      "args=\"", c.Args, "\"\n",
      "servname=\"", c.Name, "\"\n",
      "user=\"", c.User, "\"\n",
      "group=\"", c.Group, "\"\n",
      "pidfile=\"", c.PidFile, "\"\n",
      "lockfile=\"", c.LockFile, "\"\n",
      "workingDirectory=\"", c.WorkDir, "\"\n",
      "logFile=\"", c.LogFile, "\"\n",
      "[ -d $(dirname $lockfile) ] || mkdir -p $(dirname $lockfile)\n",
      "[ -e /etc/sysconfig/$servname ] && . /etc/sysconfig/$servname\n",
      "\n",
      "execPrifx=\"\"\n",
      "userName=`whoami`\n",
      "if [ $userName == \"root\" ]; then\n",
      "    execPrifx=\"su -l $user -c \"\n",
      "elif [ $userName != $user ]; then\n",
      "    echo \"only run with user root or $user\"\n",
      "    exit 1\n",
      "fi\n",
      "\n",
      "start() \x7b\n",
      "    [ -x $exec ] || exit 5\n",
      "    if [ -f $pidfile ]; then\n",
      "        if ! [ -d \"/proc/$(cat $pidfile)\" ]; then\n",
      "            rm $pidfile\n",
      "            if [ -f $lockfile ]; then\n",
      "                rm $lockfile\n",
      "            fi\n",
      "        fi\n",
      "    fi\n",
      "    if ! [ -f $pidfile ]; then\n",
      "        printf \"Starting $servname:\\t\"\n",
      "\t\tcd $\x7bworkingDirectory\x7d\n",
      "        $execPrifx $exec $args &>> $logFile &\n",
      "        echo $! > $pidfile\n",
      "        touch $lockfile\n",
      "        chown -R $user:$group $(dirname $logFile)\n",
      "        chown -R $user:$group $(dirname $pidfile)\n",
      "        chown -R $user:$group $(dirname $lockfile)\n",
      "        success\n",
      "        echo\n",
      "    else\n",
      "        # failure\n",
      "        echo\n",
      "        printf \"$pidfile still exists...\\n\"\n",
      "        exit 7\n",
      "    fi\n",
      "\x7d\n",
      "stop() \x7b\n",
      "    echo -n $\"Stopping $servname: \"\n",
      "    killproc $servname\n",
      "    retval=$?\n",
      "    echo\n",
      "    [ $retval -eq 0 ] && rm -f $lockfile\n",
      "    return $retval\n",
      "\x7d\n",
      "restart() \x7b\n",
      "    stop\n",
      "    start\n",
      "\x7d\n",
      "rh_status() \x7b\n",
      "    status -p $pidfile $servname\n",
      "\x7d\n",
      "rh_status_q() \x7b\n",
      "    rh_status >/dev/null 2>&1\n",
      "\x7d\n",
      "case \"$1\" in\n",
      "    start)\n",
      "        rh_status_q && exit 0\n",
      "        $1\n",
      "        ;;\n",
      "    stop)\n",
      "        rh_status_q || exit 0\n",
      "        $1\n",
      "        ;;\n",
      "    restart)\n",
      "        $1\n",
      "        ;;\n",
      "    status)\n",
      "        rh_status\n",
      "        ;;\n",
      "    *)\n",
      "        echo $\"Usage: $0 \x7bstart|stop|status|restart\x7d\"\n",
      "        exit 2\n",
      "esac\n",
      "exit $?\n" ]

/-- The template `supervisordScript` executed on `c`. -/
def supervisordScript (c : config) : String :=
  String.join
    [ "[program:", c.Name, "]\n",
      "directory=", c.WorkDir, "\n",
      "command=", c.Exec, " ", c.Args, "\n",
      "autostart=true\n",
      "autorestart=unexpected\n",
      "exitcodes=0\n",
      "redirect_stderr=true\n",
      "stdout_logfile_maxbytes=50MB\n",
      "stdout_logfile_backups=10\n",
      "stdout_logfile=", c.LogFile, "\n" ]


/-! ## The world outside the package -/

/-- What a path names: a regular file with its content, or a directory. -/
inductive Node where
  | file (content : String)
  | dir
  deriving DecidableEq

/-- The file system: the node at each path, `none` where `os.Stat` fails. -/
abbrev FS := String → Option Node

/-- The node at `p` replaced by `n`. -/
def fsSet (fs : FS) (p : String) (n : Option Node) : FS :=
  fun q => if q = p then n else fs q

/-- A fallible call made by the package, with whether it succeeded. -/
inductive Event where
  | exec (cmd : List String) (ok : Bool)
  | executablePath (name : String) (ok : Bool)
  | openFile (path : String) (ok : Bool)
  | execute (path : String) (ok : Bool)
  | mkdirAll (path : String) (ok : Bool)
  | create (path : String) (ok : Bool)
  | remove (path : String) (ok : Bool)
  deriving DecidableEq

/-- Whether the recorded call succeeded. -/
def Event.ok : Event → Bool
  | exec _ ok => ok
  | executablePath _ ok => ok
  | openFile _ ok => ok
  | execute _ ok => ok
  | mkdirAll _ ok => ok
  | create _ ok => ok
  | remove _ ok => ok

/-- Whether the recorded call is an `os.Remove`. -/
def Event.isRemove : Event → Bool
  | remove _ _ => true
  | _ => false

/-- The state the package acts on: the file system, the abstract state of the service
manager behind the external commands, the log of calls made, and the lines printed. -/
structure World (M : Type) where
  fs : FS
  mgr : M
  log : List Event
  out : List String

/-- The answers of everything outside the package.  `exec cmd m` is the outcome of running
the command in manager state `m`: whether it exited successfully, its output, and the next
manager state.  `absArgs0` is `filepath.Abs(os.Args[0])`; `lookPath` and `abs` are
`exec.LookPath` and `filepath.Abs`; `openOk`, `writeOk` and `mkdirOk` say whether a file
can be opened for writing, a template written into it, and a directory made; `removeOk`
says whether the system lets what the path names be removed (it does not on a read-only
file system, for a directory that is not empty, or without the permission); `reMatch` is
`regexp.MatchString` for a caller-supplied pattern (`none`: the pattern does not compile);
`toLower` is `strings.ToLower`. -/
structure Env (M : Type) where
  exec : List String → M → (Bool × String) × M
  absArgs0 : Option String
  lookPath : String → Option String
  abs : String → Option String
  openOk : String → Bool
  writeOk : String → Bool
  mkdirOk : String → Bool
  removeOk : String → Bool
  reMatch : String → String → Option Bool
  toLower : String → String

variable {M : Type}

/-- Run an external command (`exec.Command(...).Run()`, `.Output()`, `.CombinedOutput()`):
the success flag and output, with the call logged and the manager state advanced. -/
def run (env : Env M) (cmd : List String) (w : World M) : (Bool × String) × World M :=
  let r := env.exec cmd w.mgr
  (r.1, { w with mgr := r.2, log := w.log ++ [Event.exec cmd r.1.1] })

/-- The error of a failed external command. -/
def cmdErr (cmd : List String) : Err := Err.os (String.intercalate " " cmd)

/-- Go's `fmt.Println(line)`. -/
def println (line : String) (w : World M) : World M :=
  { w with out := w.out ++ [line] }

/-- Go's `pathOrFileIsExist`: `os.Stat(path)` succeeds. -/
def pathOrFileIsExist (w : World M) (path : String) : Bool :=
  (w.fs path).isSome

/-- Go's `os.OpenFile(path, O_RDWR|O_CREATE|O_TRUNC, mode)`: on success the path names an
empty regular file. -/
def osOpenFile (env : Env M) (path : String) (w : World M) : Bool × World M :=
  if env.openOk path && decide (w.fs path ≠ some Node.dir) then
    (true, { w with fs := fsSet w.fs path (some (Node.file "")),
                    log := w.log ++ [Event.openFile path true] })
  else (false, { w with log := w.log ++ [Event.openFile path false] })

/-- Go's `os.Create(path)`, which is `OpenFile(path, O_RDWR|O_CREATE|O_TRUNC, 0666)`. -/
def osCreate (env : Env M) (path : String) (w : World M) : Bool × World M :=
  if env.openOk path && decide (w.fs path ≠ some Node.dir) then
    (true, { w with fs := fsSet w.fs path (some (Node.file "")),
                    log := w.log ++ [Event.create path true] })
  else (false, { w with log := w.log ++ [Event.create path false] })

/-- Go's `tpl.Execute(file, c)` on the file just opened at `path`: on success the file
holds the rendered text. -/
def tplExecute (env : Env M) (path : String) (text : String) (w : World M) : Bool × World M :=
  if env.writeOk path then
    (true, { w with fs := fsSet w.fs path (some (Node.file text)),
                    log := w.log ++ [Event.execute path true] })
  else (false, { w with log := w.log ++ [Event.execute path false] })

/-- Go's `os.MkdirAll(path, 0755)`. -/
def osMkdirAll (env : Env M) (path : String) (w : World M) : Bool × World M :=
  match w.fs path with
  | some Node.dir => (true, { w with log := w.log ++ [Event.mkdirAll path true] })
  | some (Node.file _) => (false, { w with log := w.log ++ [Event.mkdirAll path false] })
  | none =>
    if env.mkdirOk path then
      (true, { w with fs := fsSet w.fs path (some Node.dir),
                      log := w.log ++ [Event.mkdirAll path true] })
    else (false, { w with log := w.log ++ [Event.mkdirAll path false] })

/-- Go's `os.Remove(path)`: removes what the path names; fails when it names nothing or
when the system refuses the removal, and then changes nothing. -/
def osRemove (env : Env M) (path : String) (w : World M) : Bool × World M :=
  if (w.fs path).isSome && env.removeOk path then
    (true, { w with fs := fsSet w.fs path none, log := w.log ++ [Event.remove path true] })
  else (false, { w with log := w.log ++ [Event.remove path false] })

/-- Go's `executablePath`: `exec.LookPath` then `filepath.Abs`. -/
def executablePath (env : Env M) (name : String) (w : World M) : Except Err String × World M :=
  match env.lookPath name with
  | none =>
    (Except.error (Err.os "LookPath"),
      { w with log := w.log ++ [Event.executablePath name false] })
  | some lp =>
    match env.abs lp with
    | none =>
      (Except.error (Err.os "Abs"),
        { w with log := w.log ++ [Event.executablePath name false] })
    | some p => (Except.ok p, { w with log := w.log ++ [Event.executablePath name true] })

/-- The command of the privilege probe. -/
def idCmd : List String := ["id", "-g"]

/-- Go's `checkPrivileges`: nil for group id 0, `errRootPrivileges` for another group id,
`errUnsupportedSystem` when `id -g` fails or prints no 32-bit number. -/
def checkPrivileges (env : Env M) (w : World M) : Option Err × World M :=
  let r := run env idCmd w
  if r.1.1 then
    match parseUint32 (trimSpace r.1.2.toList) with
    | some gid => if gid = 0 then (none, r.2) else (some Err.errRootPrivileges, r.2)
    | none => (some Err.errUnsupportedSystem, r.2)
  else (some Err.errUnsupportedSystem, r.2)

/-! ## Host detection and construction (daemon.go) -/

/-- The command that asks for process 1. -/
def psCmd : List String := ["ps", "-p1"]

/-- The command that looks the supervisor binary up. -/
def whichCmd : List String := ["which", "supervisord"]

/-- Go's `check`: the name of the init program, or an error. -/
def check (env : Env M) (w : World M) : Except Err String × World M :=
  let ps := run env psCmd w
  if ps.1.1 then
    let sysManager := findString ["init", "systemd"] ps.1.2
    if sysManager = "systemd" then (Except.ok sysManager, ps.2)
    else
      let wh := run env whichCmd ps.2
      if wh.1.1 then (Except.ok "supervisor", wh.2)
      else if sysManager = "" then (Except.error Err.errUnsupportedSystem, wh.2)
      else (Except.ok sysManager, wh.2)
  else (Except.error (cmdErr psCmd), ps.2)

/-- The three concrete types behind the `Daemon` interface. -/
inductive Kind where
  | supervisord
  | systemv
  | systemd
  deriving DecidableEq

/-- A value of the `Daemon` interface: one of the three structs, holding its config. -/
structure Daemon where
  kind : Kind
  c : config
  deriving DecidableEq

/-- Go's `newDaemon` on a non-nil config. -/
def newDaemon (env : Env M) (c : config) (w : World M) : Except Err Daemon × World M :=
  let r := check env w
  match r.1 with
  | Except.error e => (Except.error e, r.2)
  | Except.ok initProgramName =>
    if initProgramName = "supervisor" then (Except.ok ⟨Kind.supervisord, c⟩, r.2)
    else if initProgramName = "init" then (Except.ok ⟨Kind.systemv, c⟩, r.2)
    else if initProgramName = "systemd" then (Except.ok ⟨Kind.systemd, c⟩, r.2)
    else (Except.error Err.errUnsupportedSystem, r.2)

/-- What a call of `New` ends in: a nil-pointer panic, an error, or a daemon. -/
inductive NewResult (M : Type) where
  | panic
  | fail (e : Err) (w : World M)
  | ok (d : Daemon) (w : World M)

/-- Go's `New`: the options applied in order to `defaultConfig()`, then `setupConfig`,
then `newDaemon`.  Applying an option to the nil draft dereferences nil. -/
def New (env : Env M) (options : List Configurator) (w : World M) : NewResult M :=
  match defaultConfig env.absArgs0 with
  | none =>
    match options with
    | [] => NewResult.fail Err.errConfigIsNil w
    | _ :: _ => NewResult.panic
  | some conf =>
    match setupConfig (some (applyOptions options conf)) with
    | (some e, _) => NewResult.fail e w
    | (none, none) => NewResult.fail Err.errConfigIsNil w
    | (none, some c) =>
      match newDaemon env c w with
      | (Except.error e, w1) => NewResult.fail e w1
      | (Except.ok d, w1) => NewResult.ok d w1

/-! ## The unit-based backend (systemd.go) -/

namespace systemd

/-- Go's `(*systemd).servicePath`. -/
def servicePath (c : config) : String := "/etc/systemd/system/" ++ c.Name ++ ".service"

/-- Go's `(*systemd).isInstalled`. -/
def isInstalled (c : config) (w : World M) : Bool := (w.fs (servicePath c)).isSome

/-- The command of the running-state probe. -/
def probeCmd (c : config) : List String := ["systemctl", "is-active", c.Name ++ ".service"]

/-- Go's `(*systemd).isRunning`. -/
def isRunning (env : Env M) (c : config) (w : World M) : Bool × World M :=
  let r := run env (probeCmd c) w
  if r.1.1 then (matchLiteral "active" (env.toLower r.1.2), r.2) else (false, r.2)

def startCmd (c : config) : List String := ["systemctl", "start", c.Name]

def stopCmd (c : config) : List String := ["systemctl", "stop", c.Name]

def statusCmd (c : config) : List String := ["systemctl", "status", c.Name ++ ".service"]

def reloadCmd : List String := ["systemctl", "daemon-reload"]

def enableCmd (c : config) : List String := ["systemctl", "enable", c.Name ++ ".service"]

def disableCmd (c : config) : List String := ["systemctl", "disable", c.Name ++ ".service"]

/-- Go's `(*systemd).Install`: the error returned, the config after the call (`Exec` is
assigned the result of `executablePath`, the empty string when that fails) and the world. -/
def Install (env : Env M) (c : config) (w : World M) : Option Err × config × World M :=
  let p := checkPrivileges env w
  match p.1 with
  | some e => (wrapErr "failed to install" (some e), c, p.2)
  | none =>
    if isInstalled c p.2 then (wrapErr "failed to install" (some Err.errAlreadyInstalled), c, p.2)
    else
      let x := executablePath env c.Exec p.2
      match x.1 with
      | Except.error e => (wrapErr "failed to install" (some e), { c with Exec := "" }, x.2)
      | Except.ok exe =>
        let c1 := { c with Exec := exe }
        let f := osOpenFile env (servicePath c1) x.2
        if f.1 then
          let t := tplExecute env (servicePath c1) (systemdScript c1) f.2
          if t.1 then
            let r1 := run env reloadCmd t.2
            if r1.1.1 then
              let r2 := run env (enableCmd c1) r1.2
              if r2.1.1 then (none, c1, r2.2)
              else
                (wrapErr "failed to install" (some (cmdErr (enableCmd c1))), c1,
                  (osRemove env (servicePath c1) r2.2).2)
            else
              (wrapErr "failed to install" (some (cmdErr reloadCmd)), c1,
                (osRemove env (servicePath c1) r1.2).2)
          else
            (wrapErr "failed to install" (some (Err.os "Execute")), c1,
              (osRemove env (servicePath c1) t.2).2)
        else (wrapErr "failed to install" (some (Err.os "OpenFile")), c1, f.2)

/-- Go's `(*systemd).Enable`. -/
def Enable (_env : Env M) (_c : config) (w : World M) : Option Err × World M := (none, w)

/-- Go's `(*systemd).Disable`. -/
def Disable (_env : Env M) (_c : config) (w : World M) : Option Err × World M := (none, w)

/-- Go's `(*systemd).Start`. -/
def Start (env : Env M) (c : config) (w : World M) : Option Err × World M :=
  let p := checkPrivileges env w
  match p.1 with
  | some e => (some e, p.2)
  | none =>
    if isInstalled c p.2 then
      let q := isRunning env c p.2
      if q.1 then (some Err.errAlreadyRunning, q.2)
      else
        let r := run env (startCmd c) q.2
        if r.1.1 then (none, r.2) else (some (cmdErr (startCmd c)), r.2)
    else (some Err.errNotInstalled, p.2)

/-- Go's `(*systemd).Stop`. -/
def Stop (env : Env M) (c : config) (w : World M) : Option Err × World M :=
  let p := checkPrivileges env w
  match p.1 with
  | some e => (some e, p.2)
  | none =>
    if isInstalled c p.2 then
      let q := isRunning env c p.2
      if q.1 then
        let r := run env (stopCmd c) q.2
        if r.1.1 then (none, r.2) else (some (cmdErr (stopCmd c)), r.2)
      else (some Err.errAlreadyStopped, q.2)
    else (some Err.errNotInstalled, p.2)

/-- Go's `(*systemd).Remove`: the results of `Stop`, of `systemctl disable` and of
`os.Remove` are discarded. -/
def Remove (env : Env M) (c : config) (w : World M) : Option Err × World M :=
  let p := checkPrivileges env w
  match p.1 with
  | some e => (some e, p.2)
  | none =>
    if isInstalled c p.2 then
      let s := Stop env c p.2
      let d := run env (disableCmd c) s.2
      (none, (osRemove env (servicePath c) d.2).2)
    else (some Err.errNotInstalled, p.2)

/-- Go's `(*systemd).Status`. -/
def Status (env : Env M) (c : config) (w : World M) : Option Err × World M :=
  let p := checkPrivileges env w
  match p.1 with
  | some e => (some e, p.2)
  | none =>
    if isInstalled c p.2 then
      let r := run env (statusCmd c) p.2
      if r.1.1 && matchLiteral "Active: active" r.1.2 then
        match findSubmatchDigits "Main PID: " r.1.2 with
        | some pid => (none, println ("Service (pid " ++ pid ++ ") is running") r.2)
        | none => (none, println "Service is running" r.2)
      else (none, println "Service has stopped" r.2)
    else (some Err.errNotInstalled, p.2)

/-- Go's `(*systemd).Log`; `execCommandWithOutput` is a command run to its end. -/
def Log (env : Env M) (c : config) (w : World M) : Option Err × World M :=
  if isInstalled c w then
    let w1 := println "==> Press Ctrl-C to exit <==" w
    let r := run env ["journalctl", "-fu", c.Name] w1
    if r.1.1 then (none, r.2) else (some (cmdErr ["journalctl", "-fu", c.Name]), r.2)
  else (some Err.errNotInstalled, w)

end systemd

/-! ## The sysv-style backend (systemv.go) -/

namespace systemv

/-- Go's `(*systemv).servicePath`. -/
def servicePath (c : config) : String := "/etc/init.d/" ++ c.Name

/-- The path of the log-rotation config written by `configLogRoate`. -/
def logrotateConfPath (c : config) : String := "/etc/logrotate.d/" ++ c.Name

/-- Go's `(*systemv).isInstalled`. -/
def isInstalled (c : config) (w : World M) : Bool := (w.fs (servicePath c)).isSome

/-- The command of the running-state probe and of `Status`. -/
def statusCmd (c : config) : List String := ["service", c.Name, "status"]

/-- Go's `(*systemv).isRunning`: the status command succeeds and the service name, used as
a regular expression, matches its output. -/
def isRunning (env : Env M) (c : config) (w : World M) : Bool × World M :=
  let r := run env (statusCmd c) w
  if r.1.1 then (decide (env.reMatch c.Name r.1.2 = some true), r.2) else (false, r.2)

def startCmd (c : config) : List String := ["service", c.Name, "start"]

def stopCmd (c : config) : List String := ["service", c.Name, "stop"]

def enableCmd (c : config) : List String := ["chkconfig", "--add", c.Name]

def disableCmd (c : config) : List String := ["chkconfig", "--del", c.Name]

def chownCmd (c : config) : List String :=
  ["chown", "-R", c.User ++ ":" ++ c.Group, pathDir c.LockFile]

/-- Go's `(*systemv).enable`. -/
def enable (env : Env M) (c : config) (w : World M) : Option Err × World M :=
  let r := run env (enableCmd c) w
  if r.1.1 then (none, r.2) else (some (cmdErr (enableCmd c)), r.2)

/-- Go's `(*systemv).disable`. -/
def disable (env : Env M) (c : config) (w : World M) : Option Err × World M :=
  let r := run env (disableCmd c) w
  if r.1.1 then (none, r.2) else (some (cmdErr (disableCmd c)), r.2)

/-- Go's `(*systemv).stop`. -/
def stop (env : Env M) (c : config) (w : World M) : Option Err × World M :=
  let r := run env (stopCmd c) w
  if r.1.1 then (none, r.2) else (some (cmdErr (stopCmd c)), r.2)

/-- Go's `(*systemv).configLogFile`: nothing to do when the log file exists; otherwise
make its directory when missing and create the file; a directory made here is removed
again when the creation fails. -/
def configLogFile (env : Env M) (c : config) (w : World M) : Option Err × World M :=
  if pathOrFileIsExist w c.LogFile then (none, w)
  else
    let logPath := pathDir c.LogFile
    if pathOrFileIsExist w logPath then
      let f := osCreate env c.LogFile w
      if f.1 then (none, f.2) else (some (Err.os "Create"), f.2)
    else
      let m := osMkdirAll env logPath w
      if m.1 then
        let f := osCreate env c.LogFile m.2
        if f.1 then (none, f.2) else (some (Err.os "Create"), (osRemove env logPath f.2).2)
      else (some (Err.os "MkdirAll"), m.2)

/-- Go's `(*systemv).configLogRoate`. -/
def configLogRoate (env : Env M) (c : config) (w : World M) : Option Err × World M :=
  let l := configLogFile env c w
  match l.1 with
  | some e => (some e, l.2)
  | none =>
    let r := run env (chownCmd c) l.2
    if r.1.1 then
      let f := osOpenFile env (logrotateConfPath c) r.2
      if f.1 then
        let t := tplExecute env (logrotateConfPath c) (logRoateConf c) f.2
        if t.1 then (none, t.2)
        else (some (Err.os "Execute"), (osRemove env (logrotateConfPath c) t.2).2)
      else (some (Err.os "OpenFile"), f.2)
    else (some (cmdErr (chownCmd c)), r.2)

/-- Go's `(*systemv).removeLogRoateConf`. -/
def removeLogRoateConf (env : Env M) (c : config) (w : World M) : Option Err × World M :=
  let r := osRemove env (logrotateConfPath c) w
  if r.1 then (none, r.2) else (some (Err.os "Remove"), r.2)

/-- Go's `(*systemv).Install`; the deferred clean-up removes the service file whenever a
step after its creation returns an error. -/
def Install (env : Env M) (c : config) (w : World M) : Option Err × config × World M :=
  let p := checkPrivileges env w
  match p.1 with
  | some e => (wrapErr "failed to install service" (some e), c, p.2)
  | none =>
    if isInstalled c p.2 then
      (wrapErr "failed to install service" (some Err.errAlreadyInstalled), c, p.2)
    else
      let x := executablePath env c.Exec p.2
      match x.1 with
      | Except.error e =>
        (wrapErr "failed to install service" (some e), { c with Exec := "" }, x.2)
      | Except.ok exe =>
        let c1 := { c with Exec := exe }
        let f := osOpenFile env (servicePath c1) x.2
        if f.1 then
          let t := tplExecute env (servicePath c1) (systemvScript c1) f.2
          if t.1 then
            let l := configLogRoate env c1 t.2
            match l.1 with
            | some e =>
              (wrapErr "failed to install service" (some e), c1,
                (osRemove env (servicePath c1) l.2).2)
            | none =>
              let n := enable env c1 l.2
              match n.1 with
              | some e =>
                (wrapErr "failed to install service" (some e), c1,
                  (osRemove env (servicePath c1) n.2).2)
              | none => (none, c1, n.2)
          else
            (wrapErr "failed to install service" (some (Err.os "Execute")), c1,
              (osRemove env (servicePath c1) t.2).2)
        else (wrapErr "failed to install service" (some (Err.os "OpenFile")), c1, f.2)

/-- Go's `(*systemv).Enable`. -/
def Enable (env : Env M) (c : config) (w : World M) : Option Err × World M :=
  let p := checkPrivileges env w
  match p.1 with
  | some e => (wrapErr "failed to enable service" (some e), p.2)
  | none =>
    if isInstalled c p.2 then
      let n := enable env c p.2
      (wrapErr "failed to enable service" n.1, n.2)
    else (wrapErr "failed to enable service" (some Err.errNotInstalled), p.2)

/-- Go's `(*systemv).Disable`. -/
def Disable (env : Env M) (c : config) (w : World M) : Option Err × World M :=
  let p := checkPrivileges env w
  match p.1 with
  | some e => (wrapErr "failed to disable service" (some e), p.2)
  | none =>
    if isInstalled c p.2 then
      let n := disable env c p.2
      (wrapErr "failed to disable service" n.1, n.2)
    else (wrapErr "failed to disable service" (some Err.errNotInstalled), p.2)

/-- Go's `(*systemv).Remove`: each step's error is returned at once. -/
def Remove (env : Env M) (c : config) (w : World M) : Option Err × World M :=
  let p := checkPrivileges env w
  match p.1 with
  | some e => (wrapErr "failed to remove service" (some e), p.2)
  | none =>
    if isInstalled c p.2 then
      let s := stop env c p.2
      match s.1 with
      | some e => (wrapErr "failed to remove service" (some e), s.2)
      | none =>
        let d := disable env c s.2
        match d.1 with
        | some e => (wrapErr "failed to remove service" (some e), d.2)
        | none =>
          let r := osRemove env (servicePath c) d.2
          if r.1 then
            let l := removeLogRoateConf env c r.2
            (wrapErr "failed to remove service" l.1, l.2)
          else (wrapErr "failed to remove service" (some (Err.os "Remove")), r.2)
    else (wrapErr "failed to remove service" (some Err.errNotInstalled), p.2)

/-- Go's `(*systemv).Start`: no privilege check. -/
def Start (env : Env M) (c : config) (w : World M) : Option Err × World M :=
  if isInstalled c w then
    let q := isRunning env c w
    if q.1 then (wrapErr "failed to start service" (some Err.errAlreadyRunning), q.2)
    else
      let l := configLogFile env c q.2
      match l.1 with
      | some e => (wrapErr "failed to start service" (some e), l.2)
      | none =>
        let r := run env (startCmd c) l.2
        if r.1.1 then (none, r.2)
        else (wrapErr "failed to start service" (some (cmdErr (startCmd c))), r.2)
  else (wrapErr "failed to start service" (some Err.errNotInstalled), w)

/-- Go's `(*systemv).Stop`: no privilege check. -/
def Stop (env : Env M) (c : config) (w : World M) : Option Err × World M :=
  if isInstalled c w then
    let q := isRunning env c w
    if q.1 then
      let s := stop env c q.2
      (wrapErr "failed to stop service" s.1, s.2)
    else (wrapErr "failed to stop service" (some Err.errAlreadyStopped), q.2)
  else (wrapErr "failed to stop service" (some Err.errNotInstalled), w)

/-- Go's `(*systemv).Status`: no privilege check; when the status command succeeds and
the name does not match its output, the output itself is printed. -/
def Status (env : Env M) (c : config) (w : World M) : Option Err × World M :=
  if isInstalled c w then
    let r := run env (statusCmd c) w
    if r.1.1 then
      match env.reMatch c.Name r.1.2 with
      | none => (wrapErr "failed to show service's status" (some (Err.os "regexp")), r.2)
      | some true =>
        match findSubmatchDigits "pid  " r.1.2 with
        | some pid => (none, println ("service (pid " ++ pid ++ ") is running") r.2)
        | none => (none, println "service is running" r.2)
      | some false => (none, println r.1.2 r.2)
    else (none, println "service has stopped" r.2)
  else (wrapErr "failed to show service's status" (some Err.errNotInstalled), w)

/-- Go's `(*systemv).Log`: the result of `tail -f` is discarded. -/
def Log (env : Env M) (c : config) (w : World M) : Option Err × World M :=
  if isInstalled c w then
    let l := configLogFile env c w
    match l.1 with
    | some e => (wrapErr "failed to show service's log" (some e), l.2)
    | none =>
      let w1 := println "==> Press Ctrl-C to exit <==" l.2
      (none, (run env ["tail", "-f", c.LogFile] w1).2)
  else (wrapErr "failed to show service's log" (some Err.errNotInstalled), w)

end systemv

/-! ## The supervisor-based backend (supervisord.go) -/

namespace supervisord

/-- Go's `(*supervisord).servicePath`. -/
def servicePath (c : config) : String := "/etc/supervisor/conf.d/" ++ c.Name ++ ".ini"

/-- Go's `(*supervisord).isInstalled`. -/
def isInstalled (c : config) (w : World M) : Bool := (w.fs (servicePath c)).isSome

/-- The command of the running-state probe and of `Status`. -/
def statusCmd (c : config) : List String := ["supervisorctl", "status", c.Name]

/-- Go's `(*supervisord).isRunning`. -/
def isRunning (env : Env M) (c : config) (w : World M) : Bool × World M :=
  let r := run env (statusCmd c) w
  if r.1.1 then (matchAlts ["RUNNING", "STARTING"] r.1.2, r.2) else (false, r.2)

def startCmd (c : config) : List String := ["supervisorctl", "start", c.Name]

def stopCmd (c : config) : List String := ["supervisorctl", "stop", c.Name]

def rereadCmd : List String := ["supervisorctl", "reread"]

def addCmd (c : config) : List String := ["supervisorctl", "add", c.Name]

def removeCmd (c : config) : List String := ["supervisorctl", "remove", c.Name]

/-- The directory `logPath` of `configLogFile`. -/
def logPath (c : config) : String := "/var/log/" ++ c.Name ++ "/"

/-- The file `logFile` of `configLogFile`. -/
def logFile (c : config) : String := logPath c ++ c.Name ++ ".log"

/-- Go's `(*supervisord).configLogFile`. -/
def configLogFile (env : Env M) (c : config) (w : World M) : Option Err × World M :=
  if pathOrFileIsExist w (logFile c) then (none, w)
  else
    if pathOrFileIsExist w (logPath c) then
      let f := osCreate env (logFile c) w
      if f.1 then (none, f.2) else (some (Err.os "Create"), f.2)
    else
      let m := osMkdirAll env (logPath c) w
      if m.1 then
        let f := osCreate env (logFile c) m.2
        if f.1 then (none, f.2) else (some (Err.os "Create"), f.2)
      else (some (Err.os "MkdirAll"), m.2)

/-- Go's `(*supervisord).Install`. -/
def Install (env : Env M) (c : config) (w : World M) : Option Err × config × World M :=
  let p := checkPrivileges env w
  match p.1 with
  | some e => (wrapErr "failed to install" (some e), c, p.2)
  | none =>
    if isInstalled c p.2 then (wrapErr "failed to install" (some Err.errAlreadyInstalled), c, p.2)
    else
      let x := executablePath env c.Exec p.2
      match x.1 with
      | Except.error e => (wrapErr "failed to install" (some e), { c with Exec := "" }, x.2)
      | Except.ok exe =>
        let c1 := { c with Exec := exe }
        let f := osOpenFile env (servicePath c1) x.2
        if f.1 then
          let t := tplExecute env (servicePath c1) (supervisordScript c1) f.2
          if t.1 then
            let l := configLogFile env c1 t.2
            match l.1 with
            | some e =>
              (wrapErr "failed to install" (some e), c1, (osRemove env (servicePath c1) l.2).2)
            | none =>
              let r1 := run env rereadCmd l.2
              if r1.1.1 then
                let r2 := run env (addCmd c1) r1.2
                if r2.1.1 then (none, c1, r2.2)
                else
                  (wrapErr "failed to install" (some (cmdErr (addCmd c1))), c1,
                    (osRemove env (servicePath c1) r2.2).2)
              else
                (wrapErr "failed to install" (some (cmdErr rereadCmd)), c1,
                  (osRemove env (servicePath c1) r1.2).2)
          else
            (wrapErr "failed to install" (some (Err.os "Execute")), c1,
              (osRemove env (servicePath c1) t.2).2)
        else (wrapErr "failed to install" (some (Err.os "OpenFile")), c1, f.2)

/-- Go's `(*supervisord).Enable`. -/
def Enable (_env : Env M) (_c : config) (w : World M) : Option Err × World M := (none, w)

/-- Go's `(*supervisord).Disable`. -/
def Disable (_env : Env M) (_c : config) (w : World M) : Option Err × World M := (none, w)

/-- Go's `(*supervisord).Start`. -/
def Start (env : Env M) (c : config) (w : World M) : Option Err × World M :=
  let p := checkPrivileges env w
  match p.1 with
  | some e => (some e, p.2)
  | none =>
    if isInstalled c p.2 then
      let q := isRunning env c p.2
      if q.1 then (some Err.errAlreadyRunning, q.2)
      else
        let l := configLogFile env c q.2
        match l.1 with
        | some e => (some e, l.2)
        | none =>
          let r := run env (startCmd c) l.2
          if r.1.1 then (none, r.2) else (some (cmdErr (startCmd c)), r.2)
    else (some Err.errNotInstalled, p.2)

/-- Go's `(*supervisord).Stop`. -/
def Stop (env : Env M) (c : config) (w : World M) : Option Err × World M :=
  let p := checkPrivileges env w
  match p.1 with
  | some e => (some e, p.2)
  | none =>
    if isInstalled c p.2 then
      let q := isRunning env c p.2
      if q.1 then
        let r := run env (stopCmd c) q.2
        if r.1.1 then (none, r.2) else (some (cmdErr (stopCmd c)), r.2)
      else (some Err.errAlreadyStopped, q.2)
    else (some Err.errNotInstalled, p.2)

/-- Go's `(*supervisord).Remove`: the results of `Stop`, of `supervisorctl remove`, of
`os.Remove` and of `supervisorctl reread` are discarded. -/
def Remove (env : Env M) (c : config) (w : World M) : Option Err × World M :=
  let p := checkPrivileges env w
  match p.1 with
  | some e => (some e, p.2)
  | none =>
    if isInstalled c p.2 then
      let s := Stop env c p.2
      let d := run env (removeCmd c) s.2
      let r := osRemove env (servicePath c) d.2
      (none, (run env rereadCmd r.2).2)
    else (some Err.errNotInstalled, p.2)

/-- Go's `(*supervisord).Status`: when the status command succeeds and its output holds
none of the three state words, nothing is printed. -/
def Status (env : Env M) (c : config) (w : World M) : Option Err × World M :=
  let p := checkPrivileges env w
  match p.1 with
  | some e => (some e, p.2)
  | none =>
    if isInstalled c p.2 then
      let r := run env (statusCmd c) p.2
      if r.1.1 then
        let stat := findString ["STARTING", "RUNNING", "STOPPED"] r.1.2
        if stat = "STARTING" then (none, println "Service is starting..." r.2)
        else if stat = "RUNNING" then
          match findSubmatchDigits "pid " r.1.2 with
          | some pid => (none, println ("Service (pid " ++ pid ++ ") is running") r.2)
          | none => (none, println "Service is running" r.2)
        else if stat = "STOPPED" then (none, println "Service has stopped" r.2)
        else (none, r.2)
      else (none, println "Service has stopped" r.2)
    else (some Err.errNotInstalled, p.2)

/-- Go's `(*supervisord).Log`. -/
def Log (env : Env M) (c : config) (w : World M) : Option Err × World M :=
  if isInstalled c w then
    let l := configLogFile env c w
    match l.1 with
    | some e => (some e, l.2)
    | none =>
      let r := run env ["supervisorctl", "tail", "-f", c.Name] l.2
      if r.1.1 then (none, r.2) else (some (cmdErr ["supervisorctl", "tail", "-f", c.Name]), r.2)
  else (some Err.errNotInstalled, w)

end supervisord

/-! ## Dispatch through the `Daemon` interface -/

/-- The life-cycle artifact of a daemon: its `servicePath()`. -/
def Daemon.servicePath (d : Daemon) : String :=
  match d.kind with
  | Kind.supervisord => supervisord.servicePath d.c
  | Kind.systemv => systemv.servicePath d.c
  | Kind.systemd => systemd.servicePath d.c

/-- Call of `d.Install()`: the error, the daemon with its config after the call, and the
world. -/
def Daemon.Install (env : Env M) (d : Daemon) (w : World M) : Option Err × Daemon × World M :=
  match d.kind with
  | Kind.supervisord =>
    let r := supervisord.Install env d.c w
    (r.1, ⟨Kind.supervisord, r.2.1⟩, r.2.2)
  | Kind.systemv =>
    let r := systemv.Install env d.c w
    (r.1, ⟨Kind.systemv, r.2.1⟩, r.2.2)
  | Kind.systemd =>
    let r := systemd.Install env d.c w
    (r.1, ⟨Kind.systemd, r.2.1⟩, r.2.2)

/-- Call of `d.Remove()`. -/
def Daemon.Remove (env : Env M) (d : Daemon) (w : World M) : Option Err × World M :=
  match d.kind with
  | Kind.supervisord => supervisord.Remove env d.c w
  | Kind.systemv => systemv.Remove env d.c w
  | Kind.systemd => systemd.Remove env d.c w

/-- Call of `d.Start()`. -/
def Daemon.Start (env : Env M) (d : Daemon) (w : World M) : Option Err × World M :=
  match d.kind with
  | Kind.supervisord => supervisord.Start env d.c w
  | Kind.systemv => systemv.Start env d.c w
  | Kind.systemd => systemd.Start env d.c w

/-- Call of `d.Stop()`. -/
def Daemon.Stop (env : Env M) (d : Daemon) (w : World M) : Option Err × World M :=
  match d.kind with
  | Kind.supervisord => supervisord.Stop env d.c w
  | Kind.systemv => systemv.Stop env d.c w
  | Kind.systemd => systemd.Stop env d.c w

/-- Call of `d.Status()`. -/
def Daemon.Status (env : Env M) (d : Daemon) (w : World M) : Option Err × World M :=
  match d.kind with
  | Kind.supervisord => supervisord.Status env d.c w
  | Kind.systemv => systemv.Status env d.c w
  | Kind.systemd => systemd.Status env d.c w

/-- Call of `d.Enable()`. -/
def Daemon.Enable (env : Env M) (d : Daemon) (w : World M) : Option Err × World M :=
  match d.kind with
  | Kind.supervisord => supervisord.Enable env d.c w
  | Kind.systemv => systemv.Enable env d.c w
  | Kind.systemd => systemd.Enable env d.c w

/-- Call of `d.Disable()`. -/
def Daemon.Disable (env : Env M) (d : Daemon) (w : World M) : Option Err × World M :=
  match d.kind with
  | Kind.supervisord => supervisord.Disable env d.c w
  | Kind.systemv => systemv.Disable env d.c w
  | Kind.systemd => systemd.Disable env d.c w

/-- Call of `d.Log()`. -/
def Daemon.Log (env : Env M) (d : Daemon) (w : World M) : Option Err × World M :=
  match d.kind with
  | Kind.supervisord => supervisord.Log env d.c w
  | Kind.systemv => systemv.Log env d.c w
  | Kind.systemd => systemd.Log env d.c w

/-! ## Concrete hosts, used to evaluate the code -/

/-- ASCII lower-casing: `strings.ToLower` on ASCII text. -/
def asciiLower (s : String) : String := String.mk (s.toList.map Char.toLower)

/-- A scripted service manager whose state is whether the service runs.  A command listed
in `overrides` gets the reply given there and leaves the state alone; otherwise `id -g`
prints `gid`, `ps -p1` prints `psOut`, `which supervisord` fails, the status probes report
the state, a start or stop command succeeds and sets or clears it, and every other
command succeeds. -/
def scriptedExec (gid psOut : String) (overrides : List (List String × (Bool × String)))
    (cmd : List String) (running : Bool) : (Bool × String) × Bool :=
  match overrides.lookup cmd with
  | some reply => (reply, running)
  | none =>
    match cmd with
    | ["id", "-g"] => ((true, gid), running)
    | ["ps", "-p1"] => ((true, psOut), running)
    | ["which", "supervisord"] => ((false, ""), running)
    | ["systemctl", "is-active", _] =>
      if running then ((true, "active\n"), running) else ((false, "inactive\n"), running)
    | ["systemctl", "status", _] =>
      if running then ((true, "   Active: active (running)\n Main PID: 4242 (wrapother)\n"), running)
      else ((false, "   Active: inactive (dead)\n"), running)
    | ["systemctl", "start", _] => ((true, ""), true)
    | ["systemctl", "stop", _] => ((true, ""), false)
    | ["service", n, "status"] =>
      if running then ((true, n ++ " (pid  4242) is running...\n"), running)
      else ((false, n ++ " is stopped\n"), running)
    | ["service", _, "start"] => ((true, ""), true)
    | ["service", _, "stop"] => ((true, ""), false)
    | ["supervisorctl", "status", n] =>
      if running then ((true, n ++ "   RUNNING   pid 4242, uptime 0:00:10\n"), running)
      else ((true, n ++ "   STOPPED   Not started\n"), running)
    | ["supervisorctl", "start", _] => ((true, ""), true)
    | ["supervisorctl", "stop", _] => ((true, ""), false)
    | _ => ((true, ""), running)

/-- The output of `ps -p1` on a systemd host. -/
def psSystemd : String := "  PID TTY          TIME CMD\n    1 ?        00:00:02 systemd\n"

/-- A host whose running executable is `/usr/local/bin/wrapper`, where every path resolves
to itself, files in `blocked` cannot be opened for writing or made as directories, every
removal is allowed, and a service name matches an output when it occurs in it. -/
def scriptedEnv (gid psOut : String) (overrides : List (List String × (Bool × String)))
    (blocked : List String) : Env Bool :=
  { exec := scriptedExec gid psOut overrides
    absArgs0 := some "/usr/local/bin/wrapper"
    lookPath := fun name => some name
    abs := fun p => some p
    openOk := fun p => decide (p ∉ blocked)
    writeOk := fun _ => true
    mkdirOk := fun p => decide (p ∉ blocked)
    removeOk := fun _ => true
    reMatch := fun pat s => some (matchLiteral pat s)
    toLower := asciiLower }

/-- A world holding the listed nodes, with an empty log and nothing printed. -/
def worldOf (nodes : List (String × Node)) (running : Bool) : World Bool :=
  { fs := fun p => nodes.lookup p, mgr := running, log := [], out := [] }

/-- The option list of examples/wrap-other/main.go. -/
def wrapOtherOptions : List Configurator :=
  [ Configurator.WithName "wrapother",
    Configurator.WithExec "/home/shgsec/wrapother",
    Configurator.WithUser "shgsec",
    Configurator.WithGroup "shgsec",
    Configurator.WithLogFile "/home/shgsec/wrapother.log",
    Configurator.WithDescription "test wrapother service",
    Configurator.WithLockFile "/home/shgsec/wrapother.lock",
    Configurator.WithPidFile "/home/shgsec/wrapother.pid" ]

/-- The config that `New` builds from `wrapOtherOptions` when the running executable is
`/usr/local/bin/wrapper`. -/
def wrapOtherConfig : config :=
  { Description := "test wrapother service"
    Name := "wrapother"
    Exec := "/home/shgsec/wrapother"
    Args := ""
    WorkDir := "/usr/local/bin"
    Dependencies := ""
    User := "shgsec"
    Group := "shgsec"
    LogFile := "/home/shgsec/wrapother.log"
    PidFile := "/home/shgsec/wrapother.pid"
    LockFile := "/home/shgsec/wrapother.lock" }

/-- The log of `w2` is the log of `w1` followed by events that all satisfy `P`. -/
def Grows (P : Event → Prop) (w1 w2 : World M) : Prop :=
  ∃ new, w2.log = w1.log ++ new ∧ ∀ e ∈ new, P e

/-- The event is not a run of the privilege probe `id -g`. -/
def notIdProbe (e : Event) : Prop := ∀ ok, e ≠ Event.exec idCmd ok

/-- What a run of `Install` that ended in `r` guarantees about the artifact at `sp`: a run
that returned nil made only successful calls; a run that returned an error either ended
with `os.Remove(sp)` or never created the file there. -/
def InstallOutcome (env : Env M) (sp : String) (w : World M)
    (r : Option Err × config × World M) : Prop :=
  (r.1 = none → Grows (fun e => e.ok = true) w r.2.2) ∧
  (r.1 ≠ none →
    (∃ w0, r.2.2 = (osRemove env sp w0).2) ∨
      Grows (fun e => e ≠ Event.openFile sp true) w r.2.2)

/-- A systemd host with a root caller on which `systemctl enable wrapother.service` fails. -/
def enableFailsEnv : Env Bool :=
  scriptedEnv "0\n" psSystemd [(["systemctl", "enable", "wrapother.service"], (false, ""))] []

/-- The host of `enableFailsEnv` on which, in addition, the system refuses every removal
(a read-only or append-only directory). -/
def enableFailsNoRemoveEnv : Env Bool :=
  { enableFailsEnv with removeOk := fun _ => false }

/-- A systemd host with a root caller on which the system refuses every removal (a
read-only `/etc`). -/
def noRemoveEnv : Env Bool :=
  { scriptedEnv "0\n" psSystemd [] [] with removeOk := fun _ => false }

/-- A host on which `ps -p1` fails (a `ps` without the `-p` option) and the supervisor
binary resolves. -/
def psFailsEnv : Env Bool :=
  scriptedEnv "0\n" ""
    [(["ps", "-p1"], (false, "")), (["which", "supervisord"], (true, "/usr/bin/supervisord\n"))]
    []

/-- The calls `Install` makes on `enableFailsEnv` for the wrap-other config. -/
def enableFailsRun : List Event :=
  [ Event.exec ["id", "-g"] true,
    Event.executablePath "/home/shgsec/wrapother" true,
    Event.openFile "/etc/systemd/system/wrapother.service" true,
    Event.execute "/etc/systemd/system/wrapother.service" true,
    Event.exec ["systemctl", "daemon-reload"] true,
    Event.exec ["systemctl", "enable", "wrapother.service"] false,
    Event.remove "/etc/systemd/system/wrapother.service" true ]

/-! ## The controlled service of the Start/Stop state machine -/

/-- Call of `d.isRunning()`. -/
def Daemon.isRunning (env : Env M) (d : Daemon) (w : World M) : Bool × World M :=
  match d.kind with
  | Kind.supervisord => supervisord.isRunning env d.c w
  | Kind.systemv => systemv.isRunning env d.c w
  | Kind.systemd => systemd.isRunning env d.c w

/-- The command behind `d.isRunning()`. -/
def Daemon.probeCmd (d : Daemon) : List String :=
  match d.kind with
  | Kind.supervisord => supervisord.statusCmd d.c
  | Kind.systemv => systemv.statusCmd d.c
  | Kind.systemd => systemd.probeCmd d.c

/-- The control command that `d.Start()` issues. -/
def Daemon.startCmd (d : Daemon) : List String :=
  match d.kind with
  | Kind.supervisord => supervisord.startCmd d.c
  | Kind.systemv => systemv.startCmd d.c
  | Kind.systemd => systemd.startCmd d.c

/-- The control command that `d.Stop()` issues. -/
def Daemon.stopCmd (d : Daemon) : List String :=
  match d.kind with
  | Kind.supervisord => supervisord.stopCmd d.c
  | Kind.systemv => systemv.stopCmd d.c
  | Kind.systemd => systemd.stopCmd d.c

/-- The log-file setup that `d.Start()` runs before its control command: `configLogFile`
for the sysv-style and the supervisor-based backend, nothing for the unit-based one. -/
def Daemon.configLogFile (env : Env M) (d : Daemon) (w : World M) : Option Err × World M :=
  match d.kind with
  | Kind.supervisord => supervisord.configLogFile env d.c w
  | Kind.systemv => systemv.configLogFile env d.c w
  | Kind.systemd => (none, w)

/-- A privileged caller and a controlled service: `running` reads the service's state off
the manager state; the privilege probe answers group id 0 and the running-state probe
answers the state, neither changing it; from the stopped state the start command succeeds
and sets it; from the running state the stop command succeeds and clears it. -/
structure Controlled (env : Env M) (d : Daemon) (running : M → Bool) : Prop where
  privileged : ∀ w : World M, (checkPrivileges env w).1 = none ∧
    running (checkPrivileges env w).2.mgr = running w.mgr
  probe : ∀ w : World M, (Daemon.isRunning env d w).1 = running w.mgr ∧
    running (Daemon.isRunning env d w).2.mgr = running w.mgr
  start : ∀ m, running m = false →
    (env.exec d.startCmd m).1.1 = true ∧ running (env.exec d.startCmd m).2 = true
  stop : ∀ m, running m = true →
    (env.exec d.stopCmd m).1.1 = true ∧ running (env.exec d.stopCmd m).2 = false

/-- The event is a run of the privilege probe or of the running-state probe of `d`. -/
def isProbe (d : Daemon) (e : Event) : Prop :=
  ∃ ok, e = Event.exec idCmd ok ∨ e = Event.exec d.probeCmd ok

/-- The world in which `Start` and `Stop` test `isInstalled`: after the privilege probe
for the unit-based and the supervisor-based backend, the initial world for the sysv-style
backend, which makes no probe. -/
def guardWorld (env : Env M) (d : Daemon) (w : World M) : World M :=
  match d.kind with
  | Kind.systemv => w
  | _ => (checkPrivileges env w).2

/-- The line is one of the statuses that the unit-based and the supervisor-based `Status`
print: starting, running with a pid, running without a pid, stopped. -/
def isStatusLine (line : String) : Prop :=
  line = "Service is starting..." ∨ (∃ pid, line = "Service (pid " ++ pid ++ ") is running") ∨
    line = "Service is running" ∨ line = "Service has stopped"

/-- A supervisor host with a root caller whose `supervisorctl status wrapother` succeeds
and reports the state FATAL. -/
def fatalEnv : Env Bool :=
  scriptedEnv "0\n" psSystemd
    [(["supervisorctl", "status", "wrapother"],
      (true, "wrapother                        FATAL     Exited too quickly\n"))] []

/-- A sysv host whose `service wrapother status` succeeds with an output that does not
name the service. -/
def unnamedStatusEnv : Env Bool :=
  scriptedEnv "0\n" psSystemd [(["service", "wrapother", "status"], (true, "is running\n"))] []

/-! ## Fields of the specification, for the option algebra -/

/-- The eleven fields of `config`. -/
inductive Field where
  | Description
  | Name
  | Exec
  | Args
  | WorkDir
  | Dependencies
  | User
  | Group
  | LogFile
  | PidFile
  | LockFile
  deriving DecidableEq

/-- The value of a field of `c`. -/
def config.get (c : config) : Field → String
  | Field.Description => c.Description
  | Field.Name => c.Name
  | Field.Exec => c.Exec
  | Field.Args => c.Args
  | Field.WorkDir => c.WorkDir
  | Field.Dependencies => c.Dependencies
  | Field.User => c.User
  | Field.Group => c.Group
  | Field.LogFile => c.LogFile
  | Field.PidFile => c.PidFile
  | Field.LockFile => c.LockFile

/-- The field that the option's closure assigns. -/
def Configurator.field : Configurator → Field
  | WithDescription _ => Field.Description
  | WithName _ => Field.Name
  | WithExec _ => Field.Exec
  | WithArgs _ => Field.Args
  | WithWorkDir _ => Field.WorkDir
  | WithDependencies _ => Field.Dependencies
  | WithUser _ => Field.User
  | WithGroup _ => Field.Group
  | WithLogFile _ => Field.LogFile
  | WithPidFile _ => Field.PidFile
  | WithLockFile _ => Field.LockFile

/-- The value that the option's closure assigns: the argument of its `With*` constructor. -/
def Configurator.value : Configurator → String
  | WithDescription des => des
  | WithName name => name
  | WithExec exec => exec
  | WithArgs args => args
  | WithWorkDir workDir => workDir
  | WithDependencies deps => deps
  | WithUser user => user
  | WithGroup group => group
  | WithLogFile logFile => logFile
  | WithPidFile pidFile => pidFile
  | WithLockFile lockFile => lockFile

/-- A systemd host with a root caller on which no executable can be found:
`exec.LookPath` fails for every name. -/
def noExecutableEnv : Env Bool :=
  { scriptedEnv "0\n" psSystemd [] [] with lookPath := fun _ => none }

/-! ## Host detection (C1) -/

theorem findAlt_mem (alts : List (List Char)) (s a : List Char)
    (h : findAlt alts s = some a) : a ∈ alts := by
  induction s with
  | nil =>
    simp only [findAlt] at h
    exact List.mem_of_find?_eq_some h
  | cons c cs ih =>
    simp only [findAlt] at h
    split at h
    · rename_i b hb
      cases h
      exact List.mem_of_find?_eq_some hb
    · exact ih h

theorem findString_init_systemd (out : String) :
    findString ["init", "systemd"] out = "" ∨ findString ["init", "systemd"] out = "init" ∨
      findString ["init", "systemd"] out = "systemd" := by
  unfold findString
  split
  · rename_i a ha
    have hm := findAlt_mem _ _ _ ha
    simp only [List.map_cons, List.map_nil, List.mem_cons, List.mem_singleton,
      List.not_mem_nil, or_false] at hm
    rcases hm with h | h
    · right; left; rw [h]; rfl
    · right; right; rw [h]; rfl
  · left; rfl

/-- Precedence of `check` once `ps -p1` has run successfully, with `marker` the init marker
that the regexp `(init|systemd)` finds in its output. -/
theorem check_precedence_of_ps (env : Env M) (w : World M) (c : config)
    (hps : (env.exec psCmd w.mgr).1.1 = true) :
    let marker := findString ["init", "systemd"] (env.exec psCmd w.mgr).1.2
    let whichOk := (env.exec whichCmd (env.exec psCmd w.mgr).2).1.1
    (marker = "" ∨ marker = "init" ∨ marker = "systemd") ∧
    (marker = "systemd" →
      (check env w).1 = Except.ok "systemd" ∧
      (newDaemon env c w).1 = Except.ok ⟨Kind.systemd, c⟩) ∧
    (marker ≠ "systemd" → whichOk = true →
      (check env w).1 = Except.ok "supervisor" ∧
      (newDaemon env c w).1 = Except.ok ⟨Kind.supervisord, c⟩) ∧
    (marker ≠ "systemd" → whichOk = false → marker = "init" →
      (check env w).1 = Except.ok "init" ∧
      (newDaemon env c w).1 = Except.ok ⟨Kind.systemv, c⟩) ∧
    (marker ≠ "systemd" → whichOk = false → marker ≠ "init" →
      (check env w).1 = Except.error Err.errUnsupportedSystem ∧
      (newDaemon env c w).1 = Except.error Err.errUnsupportedSystem) := by
  intro marker whichOk
  have hmk : marker = "" ∨ marker = "init" ∨ marker = "systemd" :=
    findString_init_systemd _
  have hm : findString ["init", "systemd"] (env.exec psCmd w.mgr).1.2 = marker := rfl
  have hwh : (env.exec whichCmd (env.exec psCmd w.mgr).2).1.1 = whichOk := rfl
  have hchk : (check env w).1 =
      if marker = "systemd" then Except.ok marker
      else if whichOk = true then Except.ok "supervisor"
      else if marker = "" then Except.error Err.errUnsupportedSystem
      else Except.ok marker := by
    simp only [check, run, hps, if_true, hm, hwh]
    by_cases h1 : marker = "systemd"
    · simp only [if_pos h1]
    · simp only [if_neg h1]
      by_cases h2 : whichOk = true
      · simp only [if_pos h2]
      · simp only [if_neg h2]
        by_cases h3 : marker = ""
        · simp only [if_pos h3]
        · simp only [if_neg h3]
  refine ⟨hmk, ?_, ?_, ?_, ?_⟩
  · intro h
    have hc : (check env w).1 = Except.ok "systemd" := by
      rw [hchk, if_pos h, h]
    refine ⟨hc, ?_⟩
    simp [newDaemon, hc]
  · intro h hw
    have hc : (check env w).1 = Except.ok "supervisor" := by
      rw [hchk, if_neg h, if_pos hw]
    refine ⟨hc, ?_⟩
    simp [newDaemon, hc]
  · intro h hw hi
    have hc : (check env w).1 = Except.ok "init" := by
      have hne : ¬ marker = "" := by rw [hi]; decide
      have hw2 : ¬ whichOk = true := by rw [hw]; decide
      rw [hchk, if_neg h, if_neg hw2, if_neg hne, hi]
    refine ⟨hc, ?_⟩
    simp [newDaemon, hc]
  · intro h hw hi
    have he : marker = "" := by
      rcases hmk with h1 | h1 | h1
      · exact h1
      · exact absurd h1 hi
      · exact absurd h1 h
    have hc : (check env w).1 = Except.error Err.errUnsupportedSystem := by
      have hw2 : ¬ whichOk = true := by rw [hw]; decide
      rw [hchk, if_neg h, if_neg hw2, if_pos he]
    refine ⟨hc, ?_⟩
    simp [newDaemon, hc]

/-- C1, as the code has it.  When `ps -p1` runs successfully, for every output of it and
every outcome of `which supervisord`, with `marker` the init marker that the regexp
`(init|systemd)` finds in the output: `check` returns "systemd" when the marker is
"systemd", whatever the lookup gives; otherwise "supervisor" when the lookup succeeds;
otherwise "init" when the marker is "init"; otherwise it fails with
`errUnsupportedSystem`; `newDaemon` builds the systemd, supervisord and systemv struct for
these three results, and the marker is always one of the empty string, "init" and
"systemd".  When `ps -p1` itself fails, `check` and `newDaemon` return the error of that
command, and `which supervisord` is not run. -/
theorem check_outcome (env : Env M) (w : World M) (c : config) :
    ((env.exec psCmd w.mgr).1.1 = true →
      let marker := findString ["init", "systemd"] (env.exec psCmd w.mgr).1.2
      let whichOk := (env.exec whichCmd (env.exec psCmd w.mgr).2).1.1
      (marker = "" ∨ marker = "init" ∨ marker = "systemd") ∧
      (marker = "systemd" →
        (check env w).1 = Except.ok "systemd" ∧
        (newDaemon env c w).1 = Except.ok ⟨Kind.systemd, c⟩) ∧
      (marker ≠ "systemd" → whichOk = true →
        (check env w).1 = Except.ok "supervisor" ∧
        (newDaemon env c w).1 = Except.ok ⟨Kind.supervisord, c⟩) ∧
      (marker ≠ "systemd" → whichOk = false → marker = "init" →
        (check env w).1 = Except.ok "init" ∧
        (newDaemon env c w).1 = Except.ok ⟨Kind.systemv, c⟩) ∧
      (marker ≠ "systemd" → whichOk = false → marker ≠ "init" →
        (check env w).1 = Except.error Err.errUnsupportedSystem ∧
        (newDaemon env c w).1 = Except.error Err.errUnsupportedSystem)) ∧
    ((env.exec psCmd w.mgr).1.1 = false →
      (check env w).1 = Except.error (cmdErr psCmd) ∧
      (newDaemon env c w).1 = Except.error (cmdErr psCmd) ∧
      (check env w).2.log = w.log ++ [Event.exec psCmd false] ∧
      (newDaemon env c w).2.log = w.log ++ [Event.exec psCmd false]) := by
  refine ⟨fun hps => check_precedence_of_ps env w c hps, fun hps => ?_⟩
  have hc : check env w =
      (Except.error (cmdErr psCmd), (run env psCmd w).2) := by
    simp only [check, run, hps, Bool.false_eq_true, if_false]
  have hl : (run env psCmd w).2.log = w.log ++ [Event.exec psCmd false] := by
    simp only [run, hps]
  refine ⟨by rw [hc], by simp only [newDaemon, hc], by rw [hc]; exact hl, ?_⟩
  simp only [newDaemon, hc]
  exact hl

theorem check_outcome_witness :
    ((scriptedEnv "0\n" psSystemd [] []).exec psCmd (worldOf [] false).mgr).1.1 = true ∧
    (check (scriptedEnv "0\n" psSystemd [] []) (worldOf [] false)).1 = Except.ok "systemd" ∧
    (psFailsEnv.exec psCmd (worldOf [] false).mgr).1.1 = false ∧
    (check psFailsEnv (worldOf [] false)).1 = Except.error (cmdErr psCmd) :=
  ⟨by decide,
    (((check_outcome (scriptedEnv "0\n" psSystemd [] []) (worldOf [] false) wrapOtherConfig).1
      (by decide)).2.1 (by decide)).1,
    by decide,
    ((check_outcome psFailsEnv (worldOf [] false) wrapOtherConfig).2 (by decide)).1⟩

/-- C1, the claim on a host where `ps -p1` fails and the supervisor binary resolves: the
init marker is not "systemd" and `which supervisord` would succeed, yet `check` returns
neither "supervisor" nor `errUnsupportedSystem` but the error of `ps`, having run `ps`
only. -/
theorem check_ps_fails :
    (psFailsEnv.exec whichCmd (psFailsEnv.exec psCmd false).2).1.1 = true ∧
    findString ["init", "systemd"] (psFailsEnv.exec psCmd false).1.2 = "" ∧
    (check psFailsEnv (worldOf [] false)).1 = Except.error (Err.os "ps -p1") ∧
    (check psFailsEnv (worldOf [] false)).1 ≠ Except.ok "supervisor" ∧
    (check psFailsEnv (worldOf [] false)).1 ≠ Except.error Err.errUnsupportedSystem ∧
    (check psFailsEnv (worldOf [] false)).2.log = [Event.exec ["ps", "-p1"] false] := by
  have hc : (check psFailsEnv (worldOf [] false)).1 = Except.error (Err.os "ps -p1") := rfl
  refine ⟨by decide, by decide, hc, ?_, ?_, by decide⟩
  · rw [hc]
    exact fun h => Except.noConfusion h
  · rw [hc]
    intro h
    injection h with h1
    exact Err.noConfusion h1

/-! ## How the primitive calls change the world -/

theorem Grows.refl (P : Event → Prop) (w : World M) : Grows P w w :=
  ⟨[], by simp, by simp⟩

theorem Grows.trans {P : Event → Prop} {w1 w2 w3 : World M}
    (h12 : Grows P w1 w2) (h23 : Grows P w2 w3) : Grows P w1 w3 := by
  obtain ⟨n1, e1, p1⟩ := h12
  obtain ⟨n2, e2, p2⟩ := h23
  refine ⟨n1 ++ n2, by rw [e2, e1, List.append_assoc], ?_⟩
  intro e he
  rcases List.mem_append.mp he with h | h
  · exact p1 e h
  · exact p2 e h

theorem Grows.step {P : Event → Prop} {w1 w2 : World M} (e : Event)
    (hlog : w2.log = w1.log ++ [e]) (he : P e) : Grows P w1 w2 :=
  ⟨[e], hlog, by simpa using he⟩

theorem Grows.new_eq {P : Event → Prop} {w1 w2 : World M} (h : Grows P w1 w2)
    (new : List Event) (hnew : w2.log = w1.log ++ new) : ∀ e ∈ new, P e := by
  obtain ⟨n, e1, p1⟩ := h
  have : n = new := List.append_cancel_left (e1.symm.trans hnew)
  subst this
  exact p1

theorem run_log (env : Env M) (cmd : List String) (w : World M) :
    (run env cmd w).2.log = w.log ++ [Event.exec cmd (run env cmd w).1.1] := rfl

theorem run_fs (env : Env M) (cmd : List String) (w : World M) :
    (run env cmd w).2.fs = w.fs := rfl

theorem run_out (env : Env M) (cmd : List String) (w : World M) :
    (run env cmd w).2.out = w.out := rfl

theorem run_result (env : Env M) (cmd : List String) (w : World M) :
    (run env cmd w).1 = (env.exec cmd w.mgr).1 := rfl

theorem run_mgr (env : Env M) (cmd : List String) (w : World M) :
    (run env cmd w).2.mgr = (env.exec cmd w.mgr).2 := rfl

theorem println_out (line : String) (w : World M) :
    (println line w).out = w.out ++ [line] := rfl

theorem osOpenFile_log (env : Env M) (p : String) (w : World M) :
    (osOpenFile env p w).2.log = w.log ++ [Event.openFile p (osOpenFile env p w).1] := by
  unfold osOpenFile; split <;> rfl

theorem osCreate_log (env : Env M) (p : String) (w : World M) :
    (osCreate env p w).2.log = w.log ++ [Event.create p (osCreate env p w).1] := by
  unfold osCreate; split <;> rfl

theorem tplExecute_log (env : Env M) (p text : String) (w : World M) :
    (tplExecute env p text w).2.log =
      w.log ++ [Event.execute p (tplExecute env p text w).1] := by
  unfold tplExecute; split <;> rfl

theorem osMkdirAll_log (env : Env M) (p : String) (w : World M) :
    (osMkdirAll env p w).2.log = w.log ++ [Event.mkdirAll p (osMkdirAll env p w).1] := by
  unfold osMkdirAll; split
  · rfl
  · rfl
  · split <;> rfl

theorem osRemove_log (env : Env M) (p : String) (w : World M) :
    (osRemove env p w).2.log = w.log ++ [Event.remove p (osRemove env p w).1] := by
  unfold osRemove; split <;> rfl

theorem osRemove_fs_of_ok (env : Env M) (p : String) (w : World M)
    (h : (osRemove env p w).1 = true) : (osRemove env p w).2.fs p = none := by
  revert h
  unfold osRemove
  split
  · intro _
    simp [fsSet]
  · intro h
    exact Bool.noConfusion h

theorem osRemove_fs_self (env : Env M) (p : String) (w : World M)
    (hok : env.removeOk p = true) : (osRemove env p w).2.fs p = none := by
  unfold osRemove
  split
  · simp [fsSet]
  · rename_i h
    simpa [hok] using h

theorem osRemove_fs_refused (env : Env M) (p : String) (w : World M)
    (hno : env.removeOk p = false) : (osRemove env p w).2.fs = w.fs := by
  unfold osRemove
  simp [hno]

theorem osRemove_ok (env : Env M) (p : String) (w : World M)
    (h : (w.fs p).isSome = true) (hok : env.removeOk p = true) :
    (osRemove env p w).1 = true := by
  unfold osRemove; simp [h, hok]

theorem osRemove_refused (env : Env M) (p : String) (w : World M)
    (hno : env.removeOk p = false) : (osRemove env p w).1 = false := by
  unfold osRemove; simp [hno]

theorem osRemove_fs_keeps_none (env : Env M) (q p : String) (w : World M)
    (h : w.fs p = none) : (osRemove env q w).2.fs p = none := by
  unfold osRemove
  split
  · simp only [fsSet]
    split
    · rfl
    · exact h
  · exact h

theorem executablePath_log (env : Env M) (name : String) (w : World M) :
    (executablePath env name w).2.log =
      w.log ++ [Event.executablePath name (executablePath env name w).1.isOk] := by
  unfold executablePath
  split
  · rfl
  · split <;> rfl

/-! ## Guards shared by the life-cycle operations -/

theorem checkPrivileges_world (env : Env M) (w : World M) :
    (checkPrivileges env w).2 = (run env idCmd w).2 := by
  unfold checkPrivileges
  simp only []
  split
  · split
    · split <;> rfl
    · rfl
  · rfl

theorem checkPrivileges_fs (env : Env M) (w : World M) :
    (checkPrivileges env w).2.fs = w.fs := by
  rw [checkPrivileges_world]; rfl

theorem checkPrivileges_out (env : Env M) (w : World M) :
    (checkPrivileges env w).2.out = w.out := by
  rw [checkPrivileges_world]; rfl

theorem checkPrivileges_ok (env : Env M) (w : World M)
    (h : (checkPrivileges env w).1 ≠ some Err.errUnsupportedSystem) :
    (env.exec idCmd w.mgr).1.1 = true := by
  unfold checkPrivileges at h
  simp only [run] at h
  by_cases hok : (env.exec idCmd w.mgr).1.1 = true
  · exact hok
  · exact absurd (by simp only [if_neg hok]) h

theorem checkPrivileges_log (env : Env M) (w : World M)
    (h : (checkPrivileges env w).1 ≠ some Err.errUnsupportedSystem) :
    (checkPrivileges env w).2.log = w.log ++ [Event.exec idCmd true] := by
  rw [checkPrivileges_world]
  simp only [run, checkPrivileges_ok env w h]

theorem systemd_isRunning_world (env : Env M) (c : config) (w : World M) :
    (systemd.isRunning env c w).2 = (run env (systemd.probeCmd c) w).2 := by
  unfold systemd.isRunning
  simp only []
  split <;> rfl

theorem supervisord_isRunning_world (env : Env M) (c : config) (w : World M) :
    (supervisord.isRunning env c w).2 = (run env (supervisord.statusCmd c) w).2 := by
  unfold supervisord.isRunning
  simp only []
  split <;> rfl

/-! ## Install on an installed service (C7), Remove on a missing one (C8) -/

/-- C7: for every backend, when the caller is privileged and the artifact at
`servicePath()` exists, `Install` returns an error that is `errAlreadyInstalled`; the file
system and the config are unchanged and the only command run is the privilege probe
`id -g`, so no file is written or truncated and no control command is issued. -/
theorem install_rejects_installed (env : Env M) (d : Daemon) (w : World M)
    (hpriv : (checkPrivileges env w).1 = none)
    (hinst : (w.fs d.servicePath).isSome = true) :
    (∃ e, (Daemon.Install env d w).1 = some e ∧ e.is Err.errAlreadyInstalled = true) ∧
    (Daemon.Install env d w).2.2.fs = w.fs ∧
    (Daemon.Install env d w).2.1 = d ∧
    (Daemon.Install env d w).2.2.log = w.log ++ [Event.exec idCmd true] := by
  have hne : (checkPrivileges env w).1 ≠ some Err.errUnsupportedSystem := by
    rw [hpriv]; exact fun h => nomatch h
  have hlog := checkPrivileges_log env w hne
  have hfs := checkPrivileges_fs env w
  obtain ⟨k, c⟩ := d
  cases k
  · have hi : supervisord.isInstalled c (checkPrivileges env w).2 = true := by
      simpa [supervisord.isInstalled, hfs, Daemon.servicePath] using hinst
    simp only [Daemon.Install, supervisord.Install, hpriv, hi, if_true, wrapErr, hfs, hlog]
    exact ⟨⟨_, rfl, by simp [Err.is]⟩, trivial, trivial, trivial⟩
  · have hi : systemv.isInstalled c (checkPrivileges env w).2 = true := by
      simpa [systemv.isInstalled, hfs, Daemon.servicePath] using hinst
    simp only [Daemon.Install, systemv.Install, hpriv, hi, if_true, wrapErr, hfs, hlog]
    exact ⟨⟨_, rfl, by simp [Err.is]⟩, trivial, trivial, trivial⟩
  · have hi : systemd.isInstalled c (checkPrivileges env w).2 = true := by
      simpa [systemd.isInstalled, hfs, Daemon.servicePath] using hinst
    simp only [Daemon.Install, systemd.Install, hpriv, hi, if_true, wrapErr, hfs, hlog]
    exact ⟨⟨_, rfl, by simp [Err.is]⟩, trivial, trivial, trivial⟩

/-- C8: for every backend, when the caller is privileged and the artifact at
`servicePath()` does not exist, `Remove` returns an error that is `errNotInstalled`; the
file system is unchanged and the only command run is the privilege probe `id -g`, so no
control command is issued. -/
theorem remove_rejects_missing (env : Env M) (d : Daemon) (w : World M)
    (hpriv : (checkPrivileges env w).1 = none)
    (hmiss : w.fs d.servicePath = none) :
    (∃ e, (Daemon.Remove env d w).1 = some e ∧ e.is Err.errNotInstalled = true) ∧
    (Daemon.Remove env d w).2.fs = w.fs ∧
    (Daemon.Remove env d w).2.log = w.log ++ [Event.exec idCmd true] := by
  have hne : (checkPrivileges env w).1 ≠ some Err.errUnsupportedSystem := by
    rw [hpriv]; exact fun h => nomatch h
  have hlog := checkPrivileges_log env w hne
  have hfs := checkPrivileges_fs env w
  obtain ⟨k, c⟩ := d
  cases k
  · have hi : supervisord.isInstalled c (checkPrivileges env w).2 = false := by
      simpa [supervisord.isInstalled, hfs, Daemon.servicePath] using hmiss
    simp only [Daemon.Remove, supervisord.Remove, hpriv, hi, wrapErr, hfs, hlog, Bool.false_eq_true,
      if_false]
    exact ⟨⟨_, rfl, by simp [Err.is]⟩, trivial, trivial⟩
  · have hi : systemv.isInstalled c (checkPrivileges env w).2 = false := by
      simpa [systemv.isInstalled, hfs, Daemon.servicePath] using hmiss
    simp only [Daemon.Remove, systemv.Remove, hpriv, hi, wrapErr, hfs, hlog, Bool.false_eq_true,
      if_false]
    exact ⟨⟨_, rfl, by simp [Err.is]⟩, trivial, trivial⟩
  · have hi : systemd.isInstalled c (checkPrivileges env w).2 = false := by
      simpa [systemd.isInstalled, hfs, Daemon.servicePath] using hmiss
    simp only [Daemon.Remove, systemd.Remove, hpriv, hi, wrapErr, hfs, hlog, Bool.false_eq_true,
      if_false]
    exact ⟨⟨_, rfl, by simp [Err.is]⟩, trivial, trivial⟩


theorem install_rejects_installed_witness :
    (checkPrivileges (scriptedEnv "0\n" psSystemd [] [])
      (Daemon.Install (scriptedEnv "0\n" psSystemd [] []) ⟨Kind.systemd, wrapOtherConfig⟩
        (worldOf [] false)).2.2).1 = none ∧
    ((Daemon.Install (scriptedEnv "0\n" psSystemd [] []) ⟨Kind.systemd, wrapOtherConfig⟩
        (worldOf [] false)).2.2.fs
      (Daemon.Install (scriptedEnv "0\n" psSystemd [] []) ⟨Kind.systemd, wrapOtherConfig⟩
        (worldOf [] false)).2.1.servicePath).isSome = true ∧
    (Daemon.Install (scriptedEnv "0\n" psSystemd [] [])
      (Daemon.Install (scriptedEnv "0\n" psSystemd [] []) ⟨Kind.systemd, wrapOtherConfig⟩
        (worldOf [] false)).2.1
      (Daemon.Install (scriptedEnv "0\n" psSystemd [] []) ⟨Kind.systemd, wrapOtherConfig⟩
        (worldOf [] false)).2.2).2.2.fs =
      (Daemon.Install (scriptedEnv "0\n" psSystemd [] []) ⟨Kind.systemd, wrapOtherConfig⟩
        (worldOf [] false)).2.2.fs :=
  ⟨by decide, by decide,
    (install_rejects_installed (scriptedEnv "0\n" psSystemd [] [])
      (Daemon.Install (scriptedEnv "0\n" psSystemd [] []) ⟨Kind.systemd, wrapOtherConfig⟩
        (worldOf [] false)).2.1
      (Daemon.Install (scriptedEnv "0\n" psSystemd [] []) ⟨Kind.systemd, wrapOtherConfig⟩
        (worldOf [] false)).2.2 (by decide) (by decide)).2.1⟩

theorem remove_rejects_missing_witness :
    (checkPrivileges (scriptedEnv "0\n" psSystemd [] []) (worldOf [] false)).1 = none ∧
    (worldOf [] false).fs (Daemon.servicePath ⟨Kind.systemv, wrapOtherConfig⟩) = none ∧
    (Daemon.Remove (scriptedEnv "0\n" psSystemd [] []) ⟨Kind.systemv, wrapOtherConfig⟩
      (worldOf [] false)).1 =
      some (Err.wrap "failed to remove service" Err.errNotInstalled) :=
  ⟨by decide, by decide, by
    obtain ⟨e, he, _⟩ := (remove_rejects_missing (scriptedEnv "0\n" psSystemd [] [])
      ⟨Kind.systemv, wrapOtherConfig⟩ (worldOf [] false) (by decide) (by decide)).1
    decide⟩

/-! ## Defaults computed before the options are applied (C5, C6) -/

/-- C5, the code at the failing input: with the running executable at
`/usr/local/bin/wrapper` on a systemd host, `New` with the wrap-other option list (a
`WithExec`, no `WithWorkDir`) builds a systemd daemon whose `WorkDir` is `/usr/local/bin`,
the directory of the running executable, so that the unit file holds
`WorkingDirectory=/usr/local/bin`, while the directory of its `Exec` is `/home/shgsec`;
and `New(WithExec("/home/shgsec/wrapother"))`, with no `WithName`, builds a daemon named
`wrapper` although the base name of its `Exec` is `wrapother`. -/
theorem new_wrapOther_workDir :
    (∃ d w1, New (scriptedEnv "0\n" psSystemd [] []) wrapOtherOptions (worldOf [] false) =
        NewResult.ok d w1 ∧
      d.kind = Kind.systemd ∧
      d.c = wrapOtherConfig ∧
      d.c.WorkDir = "/usr/local/bin" ∧
      pathDir d.c.Exec = "/home/shgsec" ∧
      matchLiteral "WorkingDirectory=/usr/local/bin\n" (systemdScript d.c) = true ∧
      matchLiteral "WorkingDirectory=/home/shgsec\n" (systemdScript d.c) = false) ∧
    (∃ d w1, New (scriptedEnv "0\n" psSystemd [] [])
        [Configurator.WithExec "/home/shgsec/wrapother"] (worldOf [] false) =
        NewResult.ok d w1 ∧
      d.c.Name = "wrapper" ∧ pathBase d.c.Exec = "wrapother") := by
  refine ⟨⟨_, _, rfl, by decide, by decide, by decide, by decide, by decide, by decide⟩,
    ⟨_, _, rfl, by decide, by decide⟩⟩

/-- C6, the code at the failing input: with the running executable at
`/usr/local/bin/wrapper` on a systemd host,
`New(WithName("wrapother"), WithExec("/home/shgsec/wrapother"))` builds a daemon whose
config is named `wrapother` while its log, PID and lock files are the ones derived from
the name `wrapper`. -/
theorem new_withName_paths :
    ∃ d w1, New (scriptedEnv "0\n" psSystemd [] [])
        [Configurator.WithName "wrapother", Configurator.WithExec "/home/shgsec/wrapother"]
        (worldOf [] false) = NewResult.ok d w1 ∧
      d.c.Name = "wrapother" ∧
      d.c.LogFile = "/var/log/wrapper/wrapper.log" ∧
      d.c.PidFile = "/var/run/wrapper.pid" ∧
      d.c.LockFile = "/var/lock/subsys/wrapper.lock" ∧
      d.c.LogFile ≠ defaultLogFile d.c.Name ∧
      d.c.PidFile ≠ defaultPidFile d.c.Name ∧
      d.c.LockFile ≠ defaultLockFile d.c.Name := by
  refine ⟨_, _, rfl, by decide, by decide, by decide, by decide, by decide, by decide,
    by decide⟩

/-! ## The privilege guard of Start and Stop (C4) -/

theorem systemv_isRunning_world (env : Env M) (c : config) (w : World M) :
    (systemv.isRunning env c w).2 = (run env (systemv.statusCmd c) w).2 := by
  unfold systemv.isRunning
  simp only []
  split <;> rfl

theorem systemv_stop_world (env : Env M) (c : config) (w : World M) :
    (systemv.stop env c w).2 = (run env (systemv.stopCmd c) w).2 := by
  unfold systemv.stop
  simp only []
  split <;> rfl

theorem notIdProbe_run (env : Env M) (cmd : List String) (w : World M) (h : cmd ≠ idCmd) :
    Grows notIdProbe w (run env cmd w).2 :=
  Grows.step _ (run_log env cmd w) (fun ok he => h (by injection he))

theorem systemv_configLogFile_notIdProbe (env : Env M) (c : config) (w : World M) :
    Grows notIdProbe w (systemv.configLogFile env c w).2 := by
  unfold systemv.configLogFile
  simp only []
  split
  · exact Grows.refl _ _
  · split
    · have h1 : Grows notIdProbe w (osCreate env c.LogFile w).2 :=
        Grows.step _ (osCreate_log env _ w) (fun ok he => nomatch he)
      split <;> exact h1
    · have h1 : Grows notIdProbe w (osMkdirAll env (pathDir c.LogFile) w).2 :=
        Grows.step _ (osMkdirAll_log env _ w) (fun ok he => nomatch he)
      split
      · have h2 := Grows.trans h1
          (Grows.step (P := notIdProbe) _ (osCreate_log env c.LogFile _) (fun ok he => nomatch he))
        split
        · exact h2
        · exact Grows.trans h2
            (Grows.step (P := notIdProbe) _ (osRemove_log env _ _) (fun ok he => nomatch he))
      · exact h1

theorem systemv_start_notIdProbe (env : Env M) (c : config) (w : World M) :
    Grows notIdProbe w (systemv.Start env c w).2 := by
  have hq : Grows notIdProbe w (systemv.isRunning env c w).2 := by
    rw [systemv_isRunning_world]
    exact notIdProbe_run env _ w (by simp [systemv.statusCmd, idCmd])
  have hl := Grows.trans hq (systemv_configLogFile_notIdProbe env c (systemv.isRunning env c w).2)
  have hr := Grows.trans hl (notIdProbe_run env (systemv.startCmd c)
    (systemv.configLogFile env c (systemv.isRunning env c w).2).2
    (by simp [systemv.startCmd, idCmd]))
  unfold systemv.Start
  simp only []
  split
  · split
    · exact hq
    · split
      · exact hl
      · split <;> exact hr
  · exact Grows.refl _ _

theorem systemv_stop_notIdProbe (env : Env M) (c : config) (w : World M) :
    Grows notIdProbe w (systemv.Stop env c w).2 := by
  have hq : Grows notIdProbe w (systemv.isRunning env c w).2 := by
    rw [systemv_isRunning_world]
    exact notIdProbe_run env _ w (by simp [systemv.statusCmd, idCmd])
  have hs : Grows notIdProbe w (systemv.stop env c (systemv.isRunning env c w).2).2 := by
    rw [systemv_stop_world]
    exact Grows.trans hq (notIdProbe_run env _ _ (by simp [systemv.stopCmd, idCmd]))
  unfold systemv.Stop
  simp only []
  split
  · split
    · exact hs
    · exact hq
  · exact Grows.refl _ _

/-- What the sysv-style `Start` and `Stop` do, for every caller: not installed, both
return `errNotInstalled` and touch nothing; installed, they probe the running state with
`service <name> status`; `Start` on a running service returns `errAlreadyRunning`,
otherwise it runs the log-file setup, returns its error if it fails, and else issues
`service <name> start` and returns nil exactly when that command succeeds; `Stop` on a
stopped service returns `errAlreadyStopped`, otherwise it issues `service <name> stop` and
returns nil exactly when that command succeeds. -/
theorem systemv_start_stop_steps (env : Env M) (c : config) (w : World M) :
    (w.fs (systemv.servicePath c) = none →
      Daemon.Start env ⟨Kind.systemv, c⟩ w =
        (some (Err.wrap "failed to start service" Err.errNotInstalled), w) ∧
      Daemon.Stop env ⟨Kind.systemv, c⟩ w =
        (some (Err.wrap "failed to stop service" Err.errNotInstalled), w)) ∧
    ((w.fs (systemv.servicePath c)).isSome = true →
      ((systemv.isRunning env c w).1 = true →
        Daemon.Start env ⟨Kind.systemv, c⟩ w =
          (some (Err.wrap "failed to start service" Err.errAlreadyRunning),
            (systemv.isRunning env c w).2) ∧
        Daemon.Stop env ⟨Kind.systemv, c⟩ w =
          (if (run env (systemv.stopCmd c) (systemv.isRunning env c w).2).1.1 = true then none
            else some (Err.wrap "failed to stop service" (cmdErr (systemv.stopCmd c))),
            (run env (systemv.stopCmd c) (systemv.isRunning env c w).2).2)) ∧
      ((systemv.isRunning env c w).1 = false →
        Daemon.Stop env ⟨Kind.systemv, c⟩ w =
          (some (Err.wrap "failed to stop service" Err.errAlreadyStopped),
            (systemv.isRunning env c w).2) ∧
        (∀ e, (systemv.configLogFile env c (systemv.isRunning env c w).2).1 = some e →
          Daemon.Start env ⟨Kind.systemv, c⟩ w =
            (some (Err.wrap "failed to start service" e),
              (systemv.configLogFile env c (systemv.isRunning env c w).2).2)) ∧
        ((systemv.configLogFile env c (systemv.isRunning env c w).2).1 = none →
          Daemon.Start env ⟨Kind.systemv, c⟩ w =
            (if (run env (systemv.startCmd c)
                (systemv.configLogFile env c (systemv.isRunning env c w).2).2).1.1 = true
              then none
              else some (Err.wrap "failed to start service" (cmdErr (systemv.startCmd c))),
              (run env (systemv.startCmd c)
                (systemv.configLogFile env c (systemv.isRunning env c w).2).2).2)))) := by
  refine ⟨?_, ?_⟩
  · intro hmiss
    have hi : systemv.isInstalled c w = false := by
      simp [systemv.isInstalled, hmiss]
    simp only [Daemon.Start, Daemon.Stop, systemv.Start, systemv.Stop, hi, wrapErr,
      Bool.false_eq_true, if_false, and_self]
  · intro hinst
    have hi : systemv.isInstalled c w = true := by
      simpa [systemv.isInstalled] using hinst
    refine ⟨?_, ?_⟩
    · intro hq
      by_cases hr : (run env (systemv.stopCmd c) (systemv.isRunning env c w).2).1.1 = true
      · simp only [Daemon.Start, Daemon.Stop, systemv.Start, systemv.Stop, hi, hq, hr, if_true,
          wrapErr, systemv.stop, and_self]
      · have hr' : (run env (systemv.stopCmd c) (systemv.isRunning env c w).2).1.1 = false := by
          simpa using hr
        simp only [Daemon.Start, Daemon.Stop, systemv.Start, systemv.Stop, hi, hq, hr', if_true,
          Bool.false_eq_true, if_false, wrapErr, systemv.stop, and_self]
    · intro hq
      refine ⟨?_, ?_, ?_⟩
      · simp only [Daemon.Stop, systemv.Stop, hi, hq, if_true, wrapErr, Bool.false_eq_true,
          if_false]
      · intro e he
        simp only [Daemon.Start, systemv.Start, hi, hq, he, if_true, wrapErr,
          Bool.false_eq_true, if_false]
      · intro hl
        by_cases hr : (run env (systemv.startCmd c)
            (systemv.configLogFile env c (systemv.isRunning env c w).2).2).1.1 = true
        · simp only [Daemon.Start, systemv.Start, hi, hq, hl, hr, if_true, wrapErr,
            Bool.false_eq_true, if_false]
        · have hr' : (run env (systemv.startCmd c)
              (systemv.configLogFile env c (systemv.isRunning env c w).2).2).1.1 = false := by
            simpa using hr
          simp only [Daemon.Start, systemv.Start, hi, hq, hl, hr', if_true, wrapErr,
            Bool.false_eq_true, if_false]

/-- C4, as the code has it: for the unit-based and the supervisor-based backend, when the
privilege probe reports a non-root caller, `Start` and `Stop` return `errRootPrivileges`
with the file system and the printed output unchanged and `id -g` the only command run
(no control command, no file or directory created).  The sysv-style backend's `Start` and
`Stop` never run the privilege probe (none of the events they add is a run of `id -g`),
and such a caller proceeds as any other: `errNotInstalled` when the artifact is missing;
otherwise the running-state probe, then `errAlreadyRunning` or `errAlreadyStopped`, or the
log-file setup and `service <name> start`, or `service <name> stop`, with nil returned
exactly when the control command succeeds. -/
theorem start_stop_privilege_guard (env : Env M) (c : config) (w : World M)
    (hnon : (checkPrivileges env w).1 = some Err.errRootPrivileges) :
    (∀ k, k = Kind.systemd ∨ k = Kind.supervisord →
      ((Daemon.Start env ⟨k, c⟩ w).1 = some Err.errRootPrivileges ∧
        (Daemon.Start env ⟨k, c⟩ w).2.fs = w.fs ∧
        (Daemon.Start env ⟨k, c⟩ w).2.out = w.out ∧
        (Daemon.Start env ⟨k, c⟩ w).2.log = w.log ++ [Event.exec idCmd true]) ∧
      ((Daemon.Stop env ⟨k, c⟩ w).1 = some Err.errRootPrivileges ∧
        (Daemon.Stop env ⟨k, c⟩ w).2.fs = w.fs ∧
        (Daemon.Stop env ⟨k, c⟩ w).2.out = w.out ∧
        (Daemon.Stop env ⟨k, c⟩ w).2.log = w.log ++ [Event.exec idCmd true])) ∧
    Grows notIdProbe w (Daemon.Start env ⟨Kind.systemv, c⟩ w).2 ∧
    Grows notIdProbe w (Daemon.Stop env ⟨Kind.systemv, c⟩ w).2 ∧
    (w.fs (systemv.servicePath c) = none →
      Daemon.Start env ⟨Kind.systemv, c⟩ w =
        (some (Err.wrap "failed to start service" Err.errNotInstalled), w) ∧
      Daemon.Stop env ⟨Kind.systemv, c⟩ w =
        (some (Err.wrap "failed to stop service" Err.errNotInstalled), w)) ∧
    ((w.fs (systemv.servicePath c)).isSome = true →
      ((systemv.isRunning env c w).1 = true →
        Daemon.Start env ⟨Kind.systemv, c⟩ w =
          (some (Err.wrap "failed to start service" Err.errAlreadyRunning),
            (systemv.isRunning env c w).2) ∧
        Daemon.Stop env ⟨Kind.systemv, c⟩ w =
          (if (run env (systemv.stopCmd c) (systemv.isRunning env c w).2).1.1 = true then none
            else some (Err.wrap "failed to stop service" (cmdErr (systemv.stopCmd c))),
            (run env (systemv.stopCmd c) (systemv.isRunning env c w).2).2)) ∧
      ((systemv.isRunning env c w).1 = false →
        Daemon.Stop env ⟨Kind.systemv, c⟩ w =
          (some (Err.wrap "failed to stop service" Err.errAlreadyStopped),
            (systemv.isRunning env c w).2) ∧
        (∀ e, (systemv.configLogFile env c (systemv.isRunning env c w).2).1 = some e →
          Daemon.Start env ⟨Kind.systemv, c⟩ w =
            (some (Err.wrap "failed to start service" e),
              (systemv.configLogFile env c (systemv.isRunning env c w).2).2)) ∧
        ((systemv.configLogFile env c (systemv.isRunning env c w).2).1 = none →
          Daemon.Start env ⟨Kind.systemv, c⟩ w =
            (if (run env (systemv.startCmd c)
                (systemv.configLogFile env c (systemv.isRunning env c w).2).2).1.1 = true
              then none
              else some (Err.wrap "failed to start service" (cmdErr (systemv.startCmd c))),
              (run env (systemv.startCmd c)
                (systemv.configLogFile env c (systemv.isRunning env c w).2).2).2)))) := by
  have hne : (checkPrivileges env w).1 ≠ some Err.errUnsupportedSystem := by
    rw [hnon]; exact fun h => nomatch h
  have hlog := checkPrivileges_log env w hne
  have hfs := checkPrivileges_fs env w
  have hout := checkPrivileges_out env w
  refine ⟨?_, systemv_start_notIdProbe env c w, systemv_stop_notIdProbe env c w,
    (systemv_start_stop_steps env c w).1, (systemv_start_stop_steps env c w).2⟩
  intro k hk
  rcases hk with hk | hk
  · subst hk
    simp only [Daemon.Start, Daemon.Stop, systemd.Start, systemd.Stop, hnon, hfs, hout, hlog,
      and_self]
  · subst hk
    simp only [Daemon.Start, Daemon.Stop, supervisord.Start, supervisord.Stop, hnon, hfs, hout,
      hlog, and_self]

/-- C4, the claim at the sysv-style backend, with a non-root caller (group id 1000) for
whom the privilege probe would report `errRootPrivileges`.  `Start` on an installed,
stopped service returns nil after issuing `service wrapother start`, and the service runs.
`Stop` on an installed, running service returns nil after issuing `service wrapother stop`,
and the service is stopped. -/
theorem systemv_start_nonroot :
    (checkPrivileges (scriptedEnv "1000\n" psSystemd [] [])
      (worldOf [("/etc/init.d/wrapother", Node.file ""),
        ("/home/shgsec/wrapother.log", Node.file "")] false)).1 =
      some Err.errRootPrivileges ∧
    (Daemon.Start (scriptedEnv "1000\n" psSystemd [] []) ⟨Kind.systemv, wrapOtherConfig⟩
      (worldOf [("/etc/init.d/wrapother", Node.file ""),
        ("/home/shgsec/wrapother.log", Node.file "")] false)).1 = none ∧
    (Daemon.Start (scriptedEnv "1000\n" psSystemd [] []) ⟨Kind.systemv, wrapOtherConfig⟩
      (worldOf [("/etc/init.d/wrapother", Node.file ""),
        ("/home/shgsec/wrapother.log", Node.file "")] false)).2.log =
      [Event.exec ["service", "wrapother", "status"] false,
        Event.exec ["service", "wrapother", "start"] true] ∧
    (Daemon.Start (scriptedEnv "1000\n" psSystemd [] []) ⟨Kind.systemv, wrapOtherConfig⟩
      (worldOf [("/etc/init.d/wrapother", Node.file ""),
        ("/home/shgsec/wrapother.log", Node.file "")] false)).2.mgr = true ∧
    (Daemon.Stop (scriptedEnv "1000\n" psSystemd [] []) ⟨Kind.systemv, wrapOtherConfig⟩
      (worldOf [("/etc/init.d/wrapother", Node.file "")] true)).1 = none ∧
    (Daemon.Stop (scriptedEnv "1000\n" psSystemd [] []) ⟨Kind.systemv, wrapOtherConfig⟩
      (worldOf [("/etc/init.d/wrapother", Node.file "")] true)).2.log =
      [Event.exec ["service", "wrapother", "status"] true,
        Event.exec ["service", "wrapother", "stop"] true] ∧
    (Daemon.Stop (scriptedEnv "1000\n" psSystemd [] []) ⟨Kind.systemv, wrapOtherConfig⟩
      (worldOf [("/etc/init.d/wrapother", Node.file "")] true)).2.mgr = false := by
  refine ⟨by decide, by decide, by decide, by decide, by decide, by decide, by decide⟩

theorem start_stop_privilege_guard_witness :
    (checkPrivileges (scriptedEnv "1000\n" psSystemd [] []) (worldOf [] false)).1 =
      some Err.errRootPrivileges ∧
    (Daemon.Start (scriptedEnv "1000\n" psSystemd [] []) ⟨Kind.systemd, wrapOtherConfig⟩
      (worldOf [] false)).1 = some Err.errRootPrivileges :=
  ⟨by decide,
    (((start_stop_privilege_guard (scriptedEnv "1000\n" psSystemd [] []) wrapOtherConfig
      (worldOf [] false) (by decide)).1 Kind.systemd (Or.inl rfl)).1).1⟩


/-! ## Remove (C3) -/

theorem systemd_stop_fs (env : Env M) (c : config) (w : World M) :
    (systemd.Stop env c w).2.fs = w.fs := by
  have hp := checkPrivileges_fs env w
  have hq : (systemd.isRunning env c (checkPrivileges env w).2).2.fs = w.fs := by
    rw [systemd_isRunning_world, run_fs, hp]
  unfold systemd.Stop
  simp only []
  split
  · exact hp
  · split
    · split
      · split <;> (rw [run_fs]; exact hq)
      · exact hq
    · exact hp

theorem supervisord_stop_fs (env : Env M) (c : config) (w : World M) :
    (supervisord.Stop env c w).2.fs = w.fs := by
  have hp := checkPrivileges_fs env w
  have hq : (supervisord.isRunning env c (checkPrivileges env w).2).2.fs = w.fs := by
    rw [supervisord_isRunning_world, run_fs, hp]
  unfold supervisord.Stop
  simp only []
  split
  · exact hp
  · split
    · split
      · split <;> (rw [run_fs]; exact hq)
      · exact hq
    · exact hp

/-- C3, as the code has it.  With a privileged caller and the artifact present: the
unit-based and the supervisor-based `Remove` return nil whatever the stop command, the
deregistration command and `os.Remove` answer; the artifact is gone when the system allows
its removal and the file system is unchanged when it refuses it.  The sysv-style `Remove`
stops at the first failure: when `service <name> stop` fails it returns that error and the
file system is unchanged; when `chkconfig --del` fails it returns that error and the file
system is unchanged; when both succeed and the removal of the artifact is refused it
returns the error of `os.Remove` and the file system is unchanged; when both succeed and
the removal is allowed the artifact is gone and the only error it can return is the failed
removal of the log-rotation config. -/
theorem remove_outcome (env : Env M) (c : config) (w : World M)
    (hpriv : (checkPrivileges env w).1 = none) :
    (∀ k, k = Kind.systemd ∨ k = Kind.supervisord →
      (w.fs (Daemon.servicePath ⟨k, c⟩)).isSome = true →
      (Daemon.Remove env ⟨k, c⟩ w).1 = none ∧
      (env.removeOk (Daemon.servicePath ⟨k, c⟩) = true →
        (Daemon.Remove env ⟨k, c⟩ w).2.fs (Daemon.servicePath ⟨k, c⟩) = none) ∧
      (env.removeOk (Daemon.servicePath ⟨k, c⟩) = false →
        (Daemon.Remove env ⟨k, c⟩ w).2.fs = w.fs)) ∧
    ((w.fs (systemv.servicePath c)).isSome = true →
      let s := run env (systemv.stopCmd c) (checkPrivileges env w).2
      let u := run env (systemv.disableCmd c) s.2
      (s.1.1 = false →
        (Daemon.Remove env ⟨Kind.systemv, c⟩ w).1 =
          some (Err.wrap "failed to remove service" (cmdErr (systemv.stopCmd c))) ∧
        (Daemon.Remove env ⟨Kind.systemv, c⟩ w).2.fs = w.fs) ∧
      (s.1.1 = true → u.1.1 = false →
        (Daemon.Remove env ⟨Kind.systemv, c⟩ w).1 =
          some (Err.wrap "failed to remove service" (cmdErr (systemv.disableCmd c))) ∧
        (Daemon.Remove env ⟨Kind.systemv, c⟩ w).2.fs = w.fs) ∧
      (s.1.1 = true → u.1.1 = true → env.removeOk (systemv.servicePath c) = false →
        (Daemon.Remove env ⟨Kind.systemv, c⟩ w).1 =
          some (Err.wrap "failed to remove service" (Err.os "Remove")) ∧
        (Daemon.Remove env ⟨Kind.systemv, c⟩ w).2.fs = w.fs) ∧
      (s.1.1 = true → u.1.1 = true → env.removeOk (systemv.servicePath c) = true →
        (Daemon.Remove env ⟨Kind.systemv, c⟩ w).2.fs (systemv.servicePath c) = none ∧
        ((Daemon.Remove env ⟨Kind.systemv, c⟩ w).1 = none ∨
          (Daemon.Remove env ⟨Kind.systemv, c⟩ w).1 =
            some (Err.wrap "failed to remove service" (Err.os "Remove"))))) := by
  have hfs := checkPrivileges_fs env w
  refine ⟨?_, ?_⟩
  · intro k hk hinst
    rcases hk with hk | hk
    · subst hk
      have hi : systemd.isInstalled c (checkPrivileges env w).2 = true := by
        simpa [systemd.isInstalled, hfs, Daemon.servicePath] using hinst
      simp only [Daemon.Remove, systemd.Remove, hpriv, hi, if_true, Daemon.servicePath,
        true_and]
      refine ⟨fun hok => osRemove_fs_self env _ _ hok, fun hno => ?_⟩
      rw [osRemove_fs_refused env _ _ hno, run_fs, systemd_stop_fs, hfs]
    · subst hk
      have hi : supervisord.isInstalled c (checkPrivileges env w).2 = true := by
        simpa [supervisord.isInstalled, hfs, Daemon.servicePath] using hinst
      simp only [Daemon.Remove, supervisord.Remove, hpriv, hi, if_true, Daemon.servicePath,
        run_fs, true_and]
      refine ⟨fun hok => osRemove_fs_self env _ _ hok, fun hno => ?_⟩
      rw [osRemove_fs_refused env _ _ hno, run_fs, supervisord_stop_fs, hfs]
  · intro hinst s u
    have hi : systemv.isInstalled c (checkPrivileges env w).2 = true := by
      simpa [systemv.isInstalled, hfs] using hinst
    have hsfs : s.2.fs = w.fs := by rw [run_fs, hfs]
    have hufs : u.2.fs = w.fs := by rw [run_fs, hsfs]
    refine ⟨?_, ?_, ?_, ?_⟩
    · intro hs
      have hs1 : (run env (systemv.stopCmd c) (checkPrivileges env w).2).1.1 = false := hs
      simp only [Daemon.Remove, systemv.Remove, hpriv, hi, if_true, systemv.stop, hs1,
        Bool.false_eq_true, if_false, wrapErr, true_and]
      exact hsfs
    · intro hs hu
      have hs1 : (run env (systemv.stopCmd c) (checkPrivileges env w).2).1.1 = true := hs
      have hu1 : (run env (systemv.disableCmd c)
          (run env (systemv.stopCmd c) (checkPrivileges env w).2).2).1.1 = false := hu
      simp only [Daemon.Remove, systemv.Remove, hpriv, hi, if_true, systemv.stop, hs1,
        systemv.disable, hu1, Bool.false_eq_true, if_false, wrapErr, true_and]
      exact hufs
    · intro hs hu hno
      have hs1 : (run env (systemv.stopCmd c) (checkPrivileges env w).2).1.1 = true := hs
      have hu1 : (run env (systemv.disableCmd c)
          (run env (systemv.stopCmd c) (checkPrivileges env w).2).2).1.1 = true := hu
      have hr1 : (osRemove env (systemv.servicePath c) (run env (systemv.disableCmd c)
          (run env (systemv.stopCmd c) (checkPrivileges env w).2).2).2).1 = false :=
        osRemove_refused env _ _ hno
      simp only [Daemon.Remove, systemv.Remove, hpriv, hi, if_true, systemv.stop, hs1,
        systemv.disable, hu1, hr1, Bool.false_eq_true, if_false, wrapErr, true_and]
      rw [osRemove_fs_refused env _ _ hno]
      exact hufs
    · intro hs hu hok
      have hs1 : (run env (systemv.stopCmd c) (checkPrivileges env w).2).1.1 = true := hs
      have hu1 : (run env (systemv.disableCmd c)
          (run env (systemv.stopCmd c) (checkPrivileges env w).2).2).1.1 = true := hu
      have hr1 : (osRemove env (systemv.servicePath c) (run env (systemv.disableCmd c)
          (run env (systemv.stopCmd c) (checkPrivileges env w).2).2).2).1 = true :=
        osRemove_ok env _ _ (by rw [hufs]; exact hinst) hok
      simp only [Daemon.Remove, systemv.Remove, hpriv, hi, if_true, systemv.stop, hs1,
        systemv.disable, hu1, hr1, systemv.removeLogRoateConf, wrapErr]
      have hgone : ∀ q, (osRemove env q (osRemove env (systemv.servicePath c)
          (run env (systemv.disableCmd c)
            (run env (systemv.stopCmd c) (checkPrivileges env w).2).2).2).2).2.fs
          (systemv.servicePath c) = none :=
        fun q => osRemove_fs_keeps_none env _ _ _ (osRemove_fs_self env _ _ hok)
      by_cases hl : (osRemove env (systemv.logrotateConfPath c)
          (osRemove env (systemv.servicePath c) (run env (systemv.disableCmd c)
            (run env (systemv.stopCmd c) (checkPrivileges env w).2).2).2).2).1 = true
      · simp only [if_pos hl]
        exact ⟨hgone _, Or.inl trivial⟩
      · simp only [if_neg hl]
        exact ⟨hgone _, Or.inr trivial⟩

/-- C3, the claim at two inputs, each with a privileged caller and an installed service.
Sysv-style, `service wrapother stop` fails: `Remove` returns that failure and the artifact
`/etc/init.d/wrapother` is still there.  Unit-based, the system refuses the removal of the
unit file: `Remove` returns nil and the artifact is still there. -/
theorem systemv_remove_stop_fails :
    ((checkPrivileges (scriptedEnv "0\n" psSystemd [(["service", "wrapother", "stop"], (false, ""))] [])
        (worldOf [("/etc/init.d/wrapother", Node.file ""),
          ("/etc/logrotate.d/wrapother", Node.file "")] true)).1 = none ∧
      (Daemon.Remove
        (scriptedEnv "0\n" psSystemd [(["service", "wrapother", "stop"], (false, ""))] [])
        ⟨Kind.systemv, wrapOtherConfig⟩
        (worldOf [("/etc/init.d/wrapother", Node.file ""),
          ("/etc/logrotate.d/wrapother", Node.file "")] true)).1 =
        some (Err.wrap "failed to remove service" (Err.os "service wrapother stop")) ∧
      ((Daemon.Remove
        (scriptedEnv "0\n" psSystemd [(["service", "wrapother", "stop"], (false, ""))] [])
        ⟨Kind.systemv, wrapOtherConfig⟩
        (worldOf [("/etc/init.d/wrapother", Node.file ""),
          ("/etc/logrotate.d/wrapother", Node.file "")] true)).2.fs
        "/etc/init.d/wrapother").isSome = true) ∧
    ((checkPrivileges noRemoveEnv
        (worldOf [("/etc/systemd/system/wrapother.service", Node.file "")] false)).1 = none ∧
      (Daemon.Remove noRemoveEnv ⟨Kind.systemd, wrapOtherConfig⟩
        (worldOf [("/etc/systemd/system/wrapother.service", Node.file "")] false)).1 = none ∧
      ((Daemon.Remove noRemoveEnv ⟨Kind.systemd, wrapOtherConfig⟩
        (worldOf [("/etc/systemd/system/wrapother.service", Node.file "")] false)).2.fs
        "/etc/systemd/system/wrapother.service").isSome = true) := by
  refine ⟨⟨by decide, by decide, by decide⟩, by decide, by decide, by decide⟩

theorem remove_outcome_witness :
    (checkPrivileges
      (scriptedEnv "0\n" psSystemd [(["systemctl", "stop", "wrapother"], (false, ""))] [])
      (worldOf [("/etc/systemd/system/wrapother.service", Node.file "")] true)).1 = none ∧
    (Daemon.Remove
      (scriptedEnv "0\n" psSystemd [(["systemctl", "stop", "wrapother"], (false, ""))] [])
      ⟨Kind.systemd, wrapOtherConfig⟩
      (worldOf [("/etc/systemd/system/wrapother.service", Node.file "")] true)).1 = none ∧
    (Daemon.Remove
      (scriptedEnv "0\n" psSystemd [(["systemctl", "stop", "wrapother"], (false, ""))] [])
      ⟨Kind.systemd, wrapOtherConfig⟩
      (worldOf [("/etc/systemd/system/wrapother.service", Node.file "")] true)).2.fs
      "/etc/systemd/system/wrapother.service" = none :=
  ⟨by decide,
    ((remove_outcome
      (scriptedEnv "0\n" psSystemd [(["systemctl", "stop", "wrapother"], (false, ""))] [])
      wrapOtherConfig
      (worldOf [("/etc/systemd/system/wrapother.service", Node.file "")] true)
      (by decide)).1 Kind.systemd (Or.inl rfl) (by decide)).1,
    ((remove_outcome
      (scriptedEnv "0\n" psSystemd [(["systemctl", "stop", "wrapother"], (false, ""))] [])
      wrapOtherConfig
      (worldOf [("/etc/systemd/system/wrapother.service", Node.file "")] true)
      (by decide)).1 Kind.systemd (Or.inl rfl) (by decide)).2.1 (by decide)⟩

/-! ## Install rolls the artifact back when it fails (C2) -/

theorem checkPrivileges_grows (P : Event → Prop) (env : Env M) (w : World M)
    (h : P (Event.exec idCmd (run env idCmd w).1.1)) :
    Grows P w (checkPrivileges env w).2 := by
  rw [checkPrivileges_world]
  exact Grows.step _ (run_log env idCmd w) h

theorem checkPrivileges_none_ok (env : Env M) (w : World M)
    (h : (checkPrivileges env w).1 = none) : (run env idCmd w).1.1 = true := by
  rw [run_result]
  exact checkPrivileges_ok env w (by rw [h]; exact fun h => nomatch h)

theorem executablePath_isOk (env : Env M) (name : String) (w : World M) (p : String)
    (h : (executablePath env name w).1 = Except.ok p) :
    (executablePath env name w).1.isOk = true := by
  rw [h]; rfl

theorem systemd_install_outcome (env : Env M) (c : config) (w : World M) :
    InstallOutcome env (systemd.servicePath c) w (systemd.Install env c w) := by
  unfold InstallOutcome systemd.Install
  simp only []
  have g1no := checkPrivileges_grows (fun e => e ≠ Event.openFile (systemd.servicePath c) true)
    env w (fun h => nomatch h)
  split
  · exact ⟨(fun h => nomatch h), fun _ => Or.inr g1no⟩
  · rename_i hp
    have g1ok := checkPrivileges_grows (fun e => e.ok = true) env w
      (checkPrivileges_none_ok env w hp)
    split
    · exact ⟨(fun h => nomatch h), fun _ => Or.inr g1no⟩
    · split
      · refine ⟨(fun h => nomatch h), fun _ => Or.inr (Grows.trans g1no ?_)⟩
        exact Grows.step _ (executablePath_log env _ _) (fun h => nomatch h)
      · rename_i exe hx
        have hsp : systemd.servicePath { c with Exec := exe } = systemd.servicePath c := rfl
        simp only [hsp]
        generalize ({ c with Exec := exe } : config) = c1
        have g2ok := Grows.trans g1ok (Grows.step (P := fun e => e.ok = true) _
          (executablePath_log env c.Exec _) (executablePath_isOk env _ _ _ hx))
        have g2no := Grows.trans g1no
          (Grows.step (P := fun e => e ≠ Event.openFile (systemd.servicePath c) true) _
            (executablePath_log env c.Exec _) (fun h => nomatch h))
        split
        · rename_i hf
          have g3ok := Grows.trans g2ok (Grows.step (P := fun e => e.ok = true) _
            (osOpenFile_log env _ _) hf)
          split
          · rename_i ht
            have g4ok := Grows.trans g3ok (Grows.step (P := fun e => e.ok = true) _
              (tplExecute_log env _ _ _) ht)
            split
            · rename_i hr1
              have g5ok := Grows.trans g4ok (Grows.step (P := fun e => e.ok = true) _
                (run_log env _ _) hr1)
              split
              · rename_i hr2
                exact ⟨fun _ => Grows.trans g5ok (Grows.step (P := fun e => e.ok = true) _
                  (run_log env _ _) hr2), fun h => absurd rfl h⟩
              · exact ⟨(fun h => nomatch h), fun _ => Or.inl ⟨_, rfl⟩⟩
            · exact ⟨(fun h => nomatch h), fun _ => Or.inl ⟨_, rfl⟩⟩
          · exact ⟨(fun h => nomatch h), fun _ => Or.inl ⟨_, rfl⟩⟩
        · rename_i hf
          refine ⟨(fun h => nomatch h), fun _ => Or.inr (Grows.trans g2no ?_)⟩
          refine Grows.step _ (osOpenFile_log env _ _) ?_
          intro h
          injection h with _ h2
          exact hf h2

theorem supervisord_configLogFile_ok (env : Env M) (c : config) (w : World M) :
    (supervisord.configLogFile env c w).1 = none →
      Grows (fun e => e.ok = true) w (supervisord.configLogFile env c w).2 := by
  unfold supervisord.configLogFile
  simp only []
  split
  · exact fun _ => Grows.refl _ _
  · split
    · split
      · rename_i hf
        exact fun _ => Grows.step _ (osCreate_log env _ _) hf
      · exact fun h => nomatch h
    · split
      · rename_i hm
        split
        · rename_i hf
          exact fun _ => Grows.trans
            (Grows.step (P := fun e => e.ok = true) _ (osMkdirAll_log env _ _) hm)
            (Grows.step (P := fun e => e.ok = true) _ (osCreate_log env _ _) hf)
        · exact fun h => nomatch h
      · exact fun h => nomatch h

theorem supervisord_install_outcome (env : Env M) (c : config) (w : World M) :
    InstallOutcome env (supervisord.servicePath c) w (supervisord.Install env c w) := by
  unfold InstallOutcome supervisord.Install
  simp only []
  have g1no := checkPrivileges_grows
    (fun e => e ≠ Event.openFile (supervisord.servicePath c) true) env w (fun h => nomatch h)
  split
  · exact ⟨(fun h => nomatch h), fun _ => Or.inr g1no⟩
  · rename_i hp
    have g1ok := checkPrivileges_grows (fun e => e.ok = true) env w
      (checkPrivileges_none_ok env w hp)
    split
    · exact ⟨(fun h => nomatch h), fun _ => Or.inr g1no⟩
    · split
      · refine ⟨(fun h => nomatch h), fun _ => Or.inr (Grows.trans g1no ?_)⟩
        exact Grows.step _ (executablePath_log env _ _) (fun h => nomatch h)
      · rename_i exe hx
        have hsp : supervisord.servicePath { c with Exec := exe } = supervisord.servicePath c :=
          rfl
        simp only [hsp]
        generalize ({ c with Exec := exe } : config) = c1
        have g2ok := Grows.trans g1ok (Grows.step (P := fun e => e.ok = true) _
          (executablePath_log env c.Exec _) (executablePath_isOk env _ _ _ hx))
        have g2no := Grows.trans g1no
          (Grows.step (P := fun e => e ≠ Event.openFile (supervisord.servicePath c) true) _
            (executablePath_log env c.Exec _) (fun h => nomatch h))
        split
        · rename_i hf
          have g3ok := Grows.trans g2ok (Grows.step (P := fun e => e.ok = true) _
            (osOpenFile_log env _ _) hf)
          split
          · rename_i ht
            have g4ok := Grows.trans g3ok (Grows.step (P := fun e => e.ok = true) _
              (tplExecute_log env _ _ _) ht)
            split
            · exact ⟨(fun h => nomatch h), fun _ => Or.inl ⟨_, rfl⟩⟩
            · rename_i hl
              have g5ok := Grows.trans g4ok (supervisord_configLogFile_ok env c1 _ hl)
              split
              · rename_i hr1
                have g6ok := Grows.trans g5ok (Grows.step (P := fun e => e.ok = true) _
                  (run_log env _ _) hr1)
                split
                · rename_i hr2
                  exact ⟨fun _ => Grows.trans g6ok (Grows.step (P := fun e => e.ok = true) _
                    (run_log env _ _) hr2), fun h => absurd rfl h⟩
                · exact ⟨(fun h => nomatch h), fun _ => Or.inl ⟨_, rfl⟩⟩
              · exact ⟨(fun h => nomatch h), fun _ => Or.inl ⟨_, rfl⟩⟩
          · exact ⟨(fun h => nomatch h), fun _ => Or.inl ⟨_, rfl⟩⟩
        · rename_i hf
          refine ⟨(fun h => nomatch h), fun _ => Or.inr (Grows.trans g2no ?_)⟩
          refine Grows.step _ (osOpenFile_log env _ _) ?_
          intro h
          injection h with _ h2
          exact hf h2

theorem systemv_configLogFile_ok (env : Env M) (c : config) (w : World M) :
    (systemv.configLogFile env c w).1 = none →
      Grows (fun e => e.ok = true) w (systemv.configLogFile env c w).2 := by
  unfold systemv.configLogFile
  simp only []
  split
  · exact fun _ => Grows.refl _ _
  · split
    · split
      · rename_i hf
        exact fun _ => Grows.step _ (osCreate_log env _ _) hf
      · exact fun h => nomatch h
    · split
      · rename_i hm
        split
        · rename_i hf
          exact fun _ => Grows.trans
            (Grows.step (P := fun e => e.ok = true) _ (osMkdirAll_log env _ _) hm)
            (Grows.step (P := fun e => e.ok = true) _ (osCreate_log env _ _) hf)
        · exact fun h => nomatch h
      · exact fun h => nomatch h

theorem systemv_configLogRoate_ok (env : Env M) (c : config) (w : World M) :
    (systemv.configLogRoate env c w).1 = none →
      Grows (fun e => e.ok = true) w (systemv.configLogRoate env c w).2 := by
  unfold systemv.configLogRoate
  simp only []
  split
  · exact fun h => nomatch h
  · rename_i hl
    have g1 := systemv_configLogFile_ok env c w hl
    split
    · rename_i hr
      have g2 := Grows.trans g1 (Grows.step (P := fun e => e.ok = true) _ (run_log env _ _) hr)
      split
      · rename_i hf
        have g3 := Grows.trans g2
          (Grows.step (P := fun e => e.ok = true) _ (osOpenFile_log env _ _) hf)
        split
        · rename_i ht
          exact fun _ => Grows.trans g3
            (Grows.step (P := fun e => e.ok = true) _ (tplExecute_log env _ _ _) ht)
        · exact fun h => nomatch h
      · exact fun h => nomatch h
    · exact fun h => nomatch h

theorem systemv_enable_ok (env : Env M) (c : config) (w : World M) :
    (systemv.enable env c w).1 = none →
      Grows (fun e => e.ok = true) w (systemv.enable env c w).2 := by
  unfold systemv.enable
  simp only []
  split
  · rename_i hr
    exact fun _ => Grows.step _ (run_log env _ _) hr
  · exact fun h => nomatch h

theorem systemv_install_outcome (env : Env M) (c : config) (w : World M) :
    InstallOutcome env (systemv.servicePath c) w (systemv.Install env c w) := by
  unfold InstallOutcome systemv.Install
  simp only []
  have g1no := checkPrivileges_grows
    (fun e => e ≠ Event.openFile (systemv.servicePath c) true) env w (fun h => nomatch h)
  split
  · exact ⟨(fun h => nomatch h), fun _ => Or.inr g1no⟩
  · rename_i hp
    have g1ok := checkPrivileges_grows (fun e => e.ok = true) env w
      (checkPrivileges_none_ok env w hp)
    split
    · exact ⟨(fun h => nomatch h), fun _ => Or.inr g1no⟩
    · split
      · refine ⟨(fun h => nomatch h), fun _ => Or.inr (Grows.trans g1no ?_)⟩
        exact Grows.step _ (executablePath_log env _ _) (fun h => nomatch h)
      · rename_i exe hx
        have hsp : systemv.servicePath { c with Exec := exe } = systemv.servicePath c := rfl
        simp only [hsp]
        generalize ({ c with Exec := exe } : config) = c1
        have g2ok := Grows.trans g1ok (Grows.step (P := fun e => e.ok = true) _
          (executablePath_log env c.Exec _) (executablePath_isOk env _ _ _ hx))
        have g2no := Grows.trans g1no
          (Grows.step (P := fun e => e ≠ Event.openFile (systemv.servicePath c) true) _
            (executablePath_log env c.Exec _) (fun h => nomatch h))
        split
        · rename_i hf
          have g3ok := Grows.trans g2ok (Grows.step (P := fun e => e.ok = true) _
            (osOpenFile_log env _ _) hf)
          split
          · rename_i ht
            have g4ok := Grows.trans g3ok (Grows.step (P := fun e => e.ok = true) _
              (tplExecute_log env _ _ _) ht)
            split
            · exact ⟨(fun h => nomatch h), fun _ => Or.inl ⟨_, rfl⟩⟩
            · rename_i hl
              have g5ok := Grows.trans g4ok (systemv_configLogRoate_ok env c1 _ hl)
              split
              · exact ⟨(fun h => nomatch h), fun _ => Or.inl ⟨_, rfl⟩⟩
              · rename_i hn
                exact ⟨fun _ => Grows.trans g5ok (systemv_enable_ok env c1 _ hn),
                  fun h => absurd rfl h⟩
          · exact ⟨(fun h => nomatch h), fun _ => Or.inl ⟨_, rfl⟩⟩
        · rename_i hf
          refine ⟨(fun h => nomatch h), fun _ => Or.inr (Grows.trans g2no ?_)⟩
          refine Grows.step _ (osOpenFile_log env _ _) ?_
          intro h
          injection h with _ h2
          exact hf h2

/-- C2, as the code has it: for every backend and every run of `Install`, with `new` the
calls the run made: if the run created the artifact file (`os.OpenFile` on `servicePath()`
succeeded) and some call of the run other than an `os.Remove` failed (template execution,
log-file or log-rotation setup, `chown`, daemon-reload, reread, add, enable,
`chkconfig --add`), then `Install` returns a non-nil error and the last call of the run is
`os.Remove(servicePath())`, whose result is discarded; nothing exists at `servicePath()`
afterwards when that removal succeeded, which it does whenever the system allows it.  A
failed call in such a run comes after the creation, since a failure before it ends the
run. -/
theorem install_rollback (env : Env M) (d : Daemon) (w : World M) (new : List Event)
    (hnew : (Daemon.Install env d w).2.2.log = w.log ++ new)
    (hcreated : Event.openFile d.servicePath true ∈ new)
    (hfail : ∃ e ∈ new, e.isRemove = false ∧ e.ok = false) :
    (Daemon.Install env d w).1 ≠ none ∧
    (∃ ok, new.getLast? = some (Event.remove d.servicePath ok) ∧
      (ok = true → (Daemon.Install env d w).2.2.fs d.servicePath = none)) ∧
    (env.removeOk d.servicePath = true →
      (Daemon.Install env d w).2.2.fs d.servicePath = none) := by
  have key : InstallOutcome env d.servicePath w
      ((Daemon.Install env d w).1, (Daemon.Install env d w).2.1.c,
        (Daemon.Install env d w).2.2) := by
    obtain ⟨k, c⟩ := d
    cases k
    · exact supervisord_install_outcome env c w
    · exact systemv_install_outcome env c w
    · exact systemd_install_outcome env c w
  obtain ⟨hok, hbad⟩ := key
  have hne : (Daemon.Install env d w).1 ≠ none := by
    intro hnone
    obtain ⟨e, he, _, hfalse⟩ := hfail
    have := Grows.new_eq (hok hnone) new hnew e he
    simp only [] at this
    rw [this] at hfalse
    exact Bool.noConfusion hfalse
  refine ⟨hne, ?_⟩
  rcases hbad hne with h | h
  · obtain ⟨w0, hw0⟩ := h
    have hw0' : (Daemon.Install env d w).2.2 = (osRemove env d.servicePath w0).2 := hw0
    have hnn : new ≠ [] := List.ne_nil_of_mem hcreated
    have hlast : new.getLast? =
        some (Event.remove d.servicePath (osRemove env d.servicePath w0).1) := by
      have h1 : (w.log ++ new).getLast? = new.getLast? :=
        List.getLast?_append_of_ne_nil _ hnn
      rw [← h1, ← hnew, hw0', osRemove_log]
      simp
    refine ⟨⟨_, hlast, ?_⟩, ?_⟩
    · intro hok1
      rw [hw0']
      exact osRemove_fs_of_ok env _ w0 hok1
    · intro hallow
      rw [hw0']
      exact osRemove_fs_self env _ w0 hallow
  · exact absurd rfl (Grows.new_eq h new hnew _ hcreated)

theorem install_rollback_witness :
    (Daemon.Install enableFailsEnv ⟨Kind.systemd, wrapOtherConfig⟩ (worldOf [] false)).2.2.log =
      (worldOf [] false).log ++ enableFailsRun ∧
    (Daemon.Install enableFailsEnv ⟨Kind.systemd, wrapOtherConfig⟩ (worldOf [] false)).1 ≠
      none ∧
    (Daemon.Install enableFailsEnv ⟨Kind.systemd, wrapOtherConfig⟩ (worldOf [] false)).2.2.fs
      "/etc/systemd/system/wrapother.service" = none :=
  ⟨by decide,
    (install_rollback enableFailsEnv ⟨Kind.systemd, wrapOtherConfig⟩ (worldOf [] false)
      enableFailsRun (by decide) (by decide)
      ⟨Event.exec ["systemctl", "enable", "wrapother.service"] false, by decide, by decide,
        by decide⟩).1,
    (install_rollback enableFailsEnv ⟨Kind.systemd, wrapOtherConfig⟩ (worldOf [] false)
      enableFailsRun (by decide) (by decide)
      ⟨Event.exec ["systemctl", "enable", "wrapother.service"] false, by decide, by decide,
        by decide⟩).2.2 (by decide)⟩

/-- C2, the claim on a host that refuses the removal: a privileged caller installs the
wrap-other service with systemd; the unit file is created and written, `systemctl enable`
fails, and the rollback's `os.Remove` is refused.  `Install` returns the error of
`systemctl enable`, and the unit file, with the rendered text, is still there. -/
theorem install_rollback_refused :
    (Daemon.Install enableFailsNoRemoveEnv ⟨Kind.systemd, wrapOtherConfig⟩
      (worldOf [] false)).2.2.log =
      [ Event.exec ["id", "-g"] true,
        Event.executablePath "/home/shgsec/wrapother" true,
        Event.openFile "/etc/systemd/system/wrapother.service" true,
        Event.execute "/etc/systemd/system/wrapother.service" true,
        Event.exec ["systemctl", "daemon-reload"] true,
        Event.exec ["systemctl", "enable", "wrapother.service"] false,
        Event.remove "/etc/systemd/system/wrapother.service" false ] ∧
    (Daemon.Install enableFailsNoRemoveEnv ⟨Kind.systemd, wrapOtherConfig⟩
      (worldOf [] false)).1 =
      some (Err.wrap "failed to install" (Err.os "systemctl enable wrapother.service")) ∧
    ((Daemon.Install enableFailsNoRemoveEnv ⟨Kind.systemd, wrapOtherConfig⟩
      (worldOf [] false)).2.2.fs "/etc/systemd/system/wrapother.service").isSome = true := by
  refine ⟨by decide, by decide, by decide⟩

/-! ## The Start/Stop state machine (C10) -/

theorem osCreate_fs_keeps (env : Env M) (q p : String) (w : World M)
    (h : (w.fs p).isSome = true) : ((osCreate env q w).2.fs p).isSome = true := by
  unfold osCreate
  split
  · simp only [fsSet]
    split
    · rfl
    · exact h
  · exact h

theorem osMkdirAll_fs_keeps (env : Env M) (q p : String) (w : World M)
    (h : (w.fs p).isSome = true) : ((osMkdirAll env q w).2.fs p).isSome = true := by
  unfold osMkdirAll
  split
  · exact h
  · exact h
  · split
    · simp only [fsSet]
      split
      · rfl
      · exact h
    · exact h

theorem osCreate_mgr (env : Env M) (q : String) (w : World M) :
    (osCreate env q w).2.mgr = w.mgr := by
  unfold osCreate; split <;> rfl

theorem osMkdirAll_mgr (env : Env M) (q : String) (w : World M) :
    (osMkdirAll env q w).2.mgr = w.mgr := by
  unfold osMkdirAll
  split
  · rfl
  · rfl
  · split <;> rfl

theorem osCreate_congr (env : Env M) (q : String) (w1 w2 : World M) (h : w1.fs = w2.fs) :
    (osCreate env q w1).1 = (osCreate env q w2).1 ∧
      (osCreate env q w1).2.fs = (osCreate env q w2).2.fs := by
  unfold osCreate
  rw [h]
  split <;> exact ⟨rfl, by simp only [h]⟩

theorem osMkdirAll_congr (env : Env M) (q : String) (w1 w2 : World M) (h : w1.fs = w2.fs) :
    (osMkdirAll env q w1).1 = (osMkdirAll env q w2).1 ∧
      (osMkdirAll env q w1).2.fs = (osMkdirAll env q w2).2.fs := by
  unfold osMkdirAll
  rw [h]
  split
  · exact ⟨rfl, rfl⟩
  · exact ⟨rfl, rfl⟩
  · split
    · exact ⟨rfl, rfl⟩
    · exact ⟨rfl, rfl⟩


theorem isRunning_world (env : Env M) (d : Daemon) (w : World M) :
    (Daemon.isRunning env d w).2 = (run env d.probeCmd w).2 := by
  obtain ⟨k, c⟩ := d
  cases k
  · exact supervisord_isRunning_world env c w
  · exact systemv_isRunning_world env c w
  · exact systemd_isRunning_world env c w

theorem isRunning_grows (env : Env M) (d : Daemon) (w : World M) :
    Grows (isProbe d) w (Daemon.isRunning env d w).2 := by
  rw [isRunning_world]
  exact Grows.step _ (run_log env _ w) ⟨_, Or.inr rfl⟩

theorem checkPrivileges_isProbe (env : Env M) (d : Daemon) (w : World M) :
    Grows (isProbe d) w (checkPrivileges env w).2 :=
  checkPrivileges_grows _ env w ⟨_, Or.inl rfl⟩

theorem isRunning_fs (env : Env M) (d : Daemon) (w : World M) :
    (Daemon.isRunning env d w).2.fs = w.fs := by
  rw [isRunning_world]; rfl

theorem configLogFile_systemv_congr (env : Env M) (c : config) (w1 w2 : World M)
    (h : w1.fs = w2.fs) :
    (systemv.configLogFile env c w1).1 = (systemv.configLogFile env c w2).1 := by
  unfold systemv.configLogFile
  simp only [pathOrFileIsExist, h]
  have hc := osCreate_congr env c.LogFile w1 w2 h
  have hm := osMkdirAll_congr env (pathDir c.LogFile) w1 w2 h
  have hc2 := osCreate_congr env c.LogFile _ _ hm.2
  split
  · rfl
  · split
    · rw [hc.1]
      split <;> rfl
    · rw [hm.1]
      split
      · rw [hc2.1]
        split <;> rfl
      · rfl

theorem configLogFile_supervisord_congr (env : Env M) (c : config) (w1 w2 : World M)
    (h : w1.fs = w2.fs) :
    (supervisord.configLogFile env c w1).1 = (supervisord.configLogFile env c w2).1 := by
  unfold supervisord.configLogFile
  simp only [pathOrFileIsExist, h]
  have hc := osCreate_congr env (supervisord.logFile c) w1 w2 h
  have hm := osMkdirAll_congr env (supervisord.logPath c) w1 w2 h
  have hc2 := osCreate_congr env (supervisord.logFile c) _ _ hm.2
  split
  · rfl
  · split
    · rw [hc.1]
      split <;> rfl
    · rw [hm.1]
      split
      · rw [hc2.1]
        split <;> rfl
      · rfl

theorem configLogFile_congr (env : Env M) (d : Daemon) (w1 w2 : World M) (h : w1.fs = w2.fs) :
    (Daemon.configLogFile env d w1).1 = (Daemon.configLogFile env d w2).1 := by
  obtain ⟨k, c⟩ := d
  cases k
  · exact configLogFile_supervisord_congr env c w1 w2 h
  · exact configLogFile_systemv_congr env c w1 w2 h
  · rfl

theorem configLogFile_keeps (env : Env M) (d : Daemon) (w : World M) (p : String)
    (hok : (Daemon.configLogFile env d w).1 = none) (hp : (w.fs p).isSome = true) :
    ((Daemon.configLogFile env d w).2.fs p).isSome = true ∧
      (Daemon.configLogFile env d w).2.mgr = w.mgr := by
  obtain ⟨k, c⟩ := d
  cases k
  · revert hok
    simp only [Daemon.configLogFile]
    unfold supervisord.configLogFile
    simp only []
    split
    · exact fun _ => ⟨hp, rfl⟩
    · split
      · split
        · exact fun _ => ⟨osCreate_fs_keeps env _ p w hp, osCreate_mgr env _ w⟩
        · exact fun h => nomatch h
      · split
        · split
          · exact fun _ => ⟨osCreate_fs_keeps env _ p _ (osMkdirAll_fs_keeps env _ p w hp),
              (osCreate_mgr env _ _).trans (osMkdirAll_mgr env _ w)⟩
          · exact fun h => nomatch h
        · exact fun h => nomatch h
  · revert hok
    simp only [Daemon.configLogFile]
    unfold systemv.configLogFile
    simp only []
    split
    · exact fun _ => ⟨hp, rfl⟩
    · split
      · split
        · exact fun _ => ⟨osCreate_fs_keeps env _ p w hp, osCreate_mgr env _ w⟩
        · exact fun h => nomatch h
      · split
        · split
          · exact fun _ => ⟨osCreate_fs_keeps env _ p _ (osMkdirAll_fs_keeps env _ p w hp),
              (osCreate_mgr env _ _).trans (osMkdirAll_mgr env _ w)⟩
          · exact fun h => nomatch h
        · exact fun h => nomatch h
  · exact ⟨hp, rfl⟩

theorem guardWorld_fs (env : Env M) (d : Daemon) (w : World M) :
    (guardWorld env d w).fs = w.fs := by
  obtain ⟨k, c⟩ := d
  cases k
  · exact checkPrivileges_fs env w
  · rfl
  · exact checkPrivileges_fs env w

theorem guardWorld_grows (env : Env M) (d : Daemon) (w : World M) :
    Grows (isProbe d) w (guardWorld env d w) := by
  obtain ⟨k, c⟩ := d
  cases k
  · exact checkPrivileges_isProbe env _ w
  · exact Grows.refl _ _
  · exact checkPrivileges_isProbe env _ w

theorem guardWorld_running (env : Env M) (d : Daemon) (running : M → Bool) (w : World M)
    (hctl : Controlled env d running) :
    running (guardWorld env d w).mgr = running w.mgr := by
  obtain ⟨k, c⟩ := d
  cases k
  · exact (hctl.privileged w).2
  · rfl
  · exact (hctl.privileged w).2

theorem start_steps (env : Env M) (d : Daemon) (w : World M)
    (hpriv : (checkPrivileges env w).1 = none)
    (hinst : (w.fs d.servicePath).isSome = true) :
    ((Daemon.isRunning env d (guardWorld env d w)).1 = true →
      (∃ e, (Daemon.Start env d w).1 = some e ∧ e.is Err.errAlreadyRunning = true) ∧
      (Daemon.Start env d w).2 = (Daemon.isRunning env d (guardWorld env d w)).2) ∧
    ((Daemon.isRunning env d (guardWorld env d w)).1 = false →
      (Daemon.configLogFile env d (Daemon.isRunning env d (guardWorld env d w)).2).1 = none →
      (Daemon.Start env d w).2 =
        (run env d.startCmd
          (Daemon.configLogFile env d (Daemon.isRunning env d (guardWorld env d w)).2).2).2 ∧
      ((run env d.startCmd
          (Daemon.configLogFile env d (Daemon.isRunning env d (guardWorld env d w)).2).2).1.1 =
          true → (Daemon.Start env d w).1 = none)) := by
  have hfs := checkPrivileges_fs env w
  obtain ⟨k, c⟩ := d
  cases k
  · have hi : supervisord.isInstalled c (checkPrivileges env w).2 = true := by
      simpa [supervisord.isInstalled, hfs, Daemon.servicePath] using hinst
    refine ⟨?_, ?_⟩
    · intro hq
      have hq1 : (supervisord.isRunning env c (checkPrivileges env w).2).1 = true := hq
      simp only [Daemon.Start, supervisord.Start, hpriv, hi, if_true, hq1, Daemon.isRunning,
        guardWorld]
      exact ⟨⟨_, rfl, by decide⟩, trivial⟩
    · intro hq hl
      have hq1 : (supervisord.isRunning env c (checkPrivileges env w).2).1 = false := hq
      have hl1 : (supervisord.configLogFile env c
          (supervisord.isRunning env c (checkPrivileges env w).2).2).1 = none := hl
      simp only [Daemon.Start, supervisord.Start, hpriv, hi, if_true, hq1, hl1, Daemon.isRunning,
        guardWorld, Daemon.configLogFile, Daemon.startCmd, Bool.false_eq_true, if_false]
      refine ⟨?_, ?_⟩
      · split <;> rfl
      · intro hr
        simp only [hr, if_true]
  · have hi : systemv.isInstalled c w = true := by
      simpa [systemv.isInstalled, Daemon.servicePath] using hinst
    refine ⟨?_, ?_⟩
    · intro hq
      have hq1 : (systemv.isRunning env c w).1 = true := hq
      simp only [Daemon.Start, systemv.Start, hi, if_true, hq1, Daemon.isRunning, guardWorld,
        wrapErr]
      exact ⟨⟨_, rfl, by simp [Err.is]⟩, trivial⟩
    · intro hq hl
      have hq1 : (systemv.isRunning env c w).1 = false := hq
      have hl1 : (systemv.configLogFile env c (systemv.isRunning env c w).2).1 = none := hl
      simp only [Daemon.Start, systemv.Start, hi, if_true, hq1, hl1, Daemon.isRunning,
        guardWorld, Daemon.configLogFile, Daemon.startCmd, Bool.false_eq_true, if_false]
      refine ⟨?_, ?_⟩
      · split <;> rfl
      · intro hr
        simp only [hr, if_true]
  · have hi : systemd.isInstalled c (checkPrivileges env w).2 = true := by
      simpa [systemd.isInstalled, hfs, Daemon.servicePath] using hinst
    refine ⟨?_, ?_⟩
    · intro hq
      have hq1 : (systemd.isRunning env c (checkPrivileges env w).2).1 = true := hq
      simp only [Daemon.Start, systemd.Start, hpriv, hi, if_true, hq1, Daemon.isRunning,
        guardWorld]
      exact ⟨⟨_, rfl, by decide⟩, trivial⟩
    · intro hq _
      have hq1 : (systemd.isRunning env c (checkPrivileges env w).2).1 = false := hq
      simp only [Daemon.Start, systemd.Start, hpriv, hi, if_true, hq1, Daemon.isRunning,
        guardWorld, Daemon.configLogFile, Daemon.startCmd, Bool.false_eq_true, if_false]
      refine ⟨?_, ?_⟩
      · split <;> rfl
      · intro hr
        simp only [hr, if_true]

theorem stop_steps (env : Env M) (d : Daemon) (w : World M)
    (hpriv : (checkPrivileges env w).1 = none)
    (hinst : (w.fs d.servicePath).isSome = true) :
    ((Daemon.isRunning env d (guardWorld env d w)).1 = false →
      (∃ e, (Daemon.Stop env d w).1 = some e ∧ e.is Err.errAlreadyStopped = true) ∧
      (Daemon.Stop env d w).2 = (Daemon.isRunning env d (guardWorld env d w)).2) ∧
    ((Daemon.isRunning env d (guardWorld env d w)).1 = true →
      (Daemon.Stop env d w).2 =
        (run env d.stopCmd (Daemon.isRunning env d (guardWorld env d w)).2).2 ∧
      ((run env d.stopCmd (Daemon.isRunning env d (guardWorld env d w)).2).1.1 = true →
        (Daemon.Stop env d w).1 = none)) := by
  have hfs := checkPrivileges_fs env w
  obtain ⟨k, c⟩ := d
  cases k
  · have hi : supervisord.isInstalled c (checkPrivileges env w).2 = true := by
      simpa [supervisord.isInstalled, hfs, Daemon.servicePath] using hinst
    refine ⟨?_, ?_⟩
    · intro hq
      have hq1 : (supervisord.isRunning env c (checkPrivileges env w).2).1 = false := hq
      simp only [Daemon.Stop, supervisord.Stop, hpriv, hi, if_true, hq1, Daemon.isRunning,
        guardWorld, Bool.false_eq_true, if_false]
      exact ⟨⟨_, rfl, by decide⟩, trivial⟩
    · intro hq
      have hq1 : (supervisord.isRunning env c (checkPrivileges env w).2).1 = true := hq
      simp only [Daemon.Stop, supervisord.Stop, hpriv, hi, if_true, hq1, Daemon.isRunning,
        guardWorld, Daemon.stopCmd]
      refine ⟨?_, ?_⟩
      · split <;> rfl
      · intro hr
        simp only [hr, if_true]
  · have hi : systemv.isInstalled c w = true := by
      simpa [systemv.isInstalled, Daemon.servicePath] using hinst
    refine ⟨?_, ?_⟩
    · intro hq
      have hq1 : (systemv.isRunning env c w).1 = false := hq
      simp only [Daemon.Stop, systemv.Stop, hi, if_true, hq1, Daemon.isRunning, guardWorld,
        wrapErr, Bool.false_eq_true, if_false]
      exact ⟨⟨_, rfl, by simp [Err.is]⟩, trivial⟩
    · intro hq
      have hq1 : (systemv.isRunning env c w).1 = true := hq
      simp only [Daemon.Stop, systemv.Stop, hi, if_true, hq1, Daemon.isRunning, guardWorld,
        Daemon.stopCmd, systemv.stop]
      refine ⟨?_, ?_⟩
      · split <;> rfl
      · intro hr
        simp only [hr, if_true, wrapErr]
  · have hi : systemd.isInstalled c (checkPrivileges env w).2 = true := by
      simpa [systemd.isInstalled, hfs, Daemon.servicePath] using hinst
    refine ⟨?_, ?_⟩
    · intro hq
      have hq1 : (systemd.isRunning env c (checkPrivileges env w).2).1 = false := hq
      simp only [Daemon.Stop, systemd.Stop, hpriv, hi, if_true, hq1, Daemon.isRunning,
        guardWorld, Bool.false_eq_true, if_false]
      exact ⟨⟨_, rfl, by decide⟩, trivial⟩
    · intro hq
      have hq1 : (systemd.isRunning env c (checkPrivileges env w).2).1 = true := hq
      simp only [Daemon.Stop, systemd.Stop, hpriv, hi, if_true, hq1, Daemon.isRunning,
        guardWorld, Daemon.stopCmd]
      refine ⟨?_, ?_⟩
      · split <;> rfl
      · intro hr
        simp only [hr, if_true]

theorem probe_stays (env : Env M) (d : Daemon) (running : M → Bool) (w : World M)
    (hctl : Controlled env d running) :
    (Daemon.isRunning env d (guardWorld env d w)).1 = running w.mgr ∧
    running (Daemon.isRunning env d (guardWorld env d w)).2.mgr = running w.mgr ∧
    (Daemon.isRunning env d (guardWorld env d w)).2.fs = w.fs ∧
    Grows (isProbe d) w (Daemon.isRunning env d (guardWorld env d w)).2 := by
  have h1 := hctl.probe (guardWorld env d w)
  have h2 := guardWorld_running env d running w hctl
  refine ⟨h1.1.trans h2, h1.2.trans h2, ?_, ?_⟩
  · rw [isRunning_fs, guardWorld_fs]
  · exact Grows.trans (guardWorld_grows env d w) (isRunning_grows env d _)

theorem start_from_stopped (env : Env M) (d : Daemon) (running : M → Bool) (w : World M)
    (hctl : Controlled env d running)
    (hinst : (w.fs d.servicePath).isSome = true)
    (hstopped : running w.mgr = false)
    (hlog : (Daemon.configLogFile env d w).1 = none) :
    (Daemon.Start env d w).1 = none ∧ running (Daemon.Start env d w).2.mgr = true ∧
    ((Daemon.Start env d w).2.fs d.servicePath).isSome = true := by
  obtain ⟨hq, hqr, hqfs, _⟩ := probe_stays env d running w hctl
  have hsteps := (start_steps env d w (hctl.privileged w).1 hinst).2 (hq.trans hstopped)
    ((configLogFile_congr env d _ w hqfs).trans hlog)
  have hl : (Daemon.configLogFile env d
      (Daemon.isRunning env d (guardWorld env d w)).2).1 = none :=
    (configLogFile_congr env d _ w hqfs).trans hlog
  have hkeep := configLogFile_keeps env d _ d.servicePath hl (by rw [hqfs]; exact hinst)
  have hst := hctl.start (Daemon.configLogFile env d
      (Daemon.isRunning env d (guardWorld env d w)).2).2.mgr
    (by rw [hkeep.2, hqr]; exact hstopped)
  refine ⟨hsteps.2 (by rw [run_result]; exact hst.1), ?_, ?_⟩
  · rw [hsteps.1, run_mgr]; exact hst.2
  · rw [hsteps.1, run_fs]; exact hkeep.1

theorem start_when_running (env : Env M) (d : Daemon) (running : M → Bool) (w : World M)
    (hctl : Controlled env d running)
    (hinst : (w.fs d.servicePath).isSome = true)
    (hrunning : running w.mgr = true) :
    (∃ e, (Daemon.Start env d w).1 = some e ∧ e.is Err.errAlreadyRunning = true) ∧
    Grows (isProbe d) w (Daemon.Start env d w).2 ∧
    running (Daemon.Start env d w).2.mgr = true ∧
    (Daemon.Start env d w).2.fs = w.fs := by
  obtain ⟨hq, hqr, hqfs, hqg⟩ := probe_stays env d running w hctl
  have hsteps := (start_steps env d w (hctl.privileged w).1 hinst).1 (hq.trans hrunning)
  refine ⟨hsteps.1, ?_, ?_, ?_⟩
  · rw [hsteps.2]; exact hqg
  · rw [hsteps.2, hqr]; exact hrunning
  · rw [hsteps.2]; exact hqfs

theorem stop_from_running (env : Env M) (d : Daemon) (running : M → Bool) (w : World M)
    (hctl : Controlled env d running)
    (hinst : (w.fs d.servicePath).isSome = true)
    (hrunning : running w.mgr = true) :
    (Daemon.Stop env d w).1 = none ∧ running (Daemon.Stop env d w).2.mgr = false ∧
    (Daemon.Stop env d w).2.fs = w.fs := by
  obtain ⟨hq, hqr, hqfs, _⟩ := probe_stays env d running w hctl
  have hsteps := (stop_steps env d w (hctl.privileged w).1 hinst).2 (hq.trans hrunning)
  have hst := hctl.stop (Daemon.isRunning env d (guardWorld env d w)).2.mgr
    (by rw [hqr]; exact hrunning)
  refine ⟨hsteps.2 (by rw [run_result]; exact hst.1), ?_, ?_⟩
  · rw [hsteps.1, run_mgr]; exact hst.2
  · rw [hsteps.1, run_fs]; exact hqfs

theorem stop_when_stopped (env : Env M) (d : Daemon) (running : M → Bool) (w : World M)
    (hctl : Controlled env d running)
    (hinst : (w.fs d.servicePath).isSome = true)
    (hstopped : running w.mgr = false) :
    (∃ e, (Daemon.Stop env d w).1 = some e ∧ e.is Err.errAlreadyStopped = true) ∧
    Grows (isProbe d) w (Daemon.Stop env d w).2 ∧
    running (Daemon.Stop env d w).2.mgr = false := by
  obtain ⟨hq, hqr, _, hqg⟩ := probe_stays env d running w hctl
  have hsteps := (stop_steps env d w (hctl.privileged w).1 hinst).1 (hq.trans hstopped)
  refine ⟨hsteps.1, ?_, ?_⟩
  · rw [hsteps.2]; exact hqg
  · rw [hsteps.2, hqr]; exact hstopped

/-- C10, with the premise the code needs: for every backend, with a privileged caller, an
installed artifact, a controlled service that is stopped, and a log-file setup that
succeeds (`configLogFile`, which the sysv-style and the supervisor-based `Start` run
before the start command; the unit-based `Start` has none): `Start` returns nil and the
service runs; a second `Start` returns `errAlreadyRunning` having run only the privilege
and running-state probes; `Stop` then returns nil and the service is stopped; a second
`Stop` returns `errAlreadyStopped` having run only the probes. -/
theorem start_stop_cycle (env : Env M) (d : Daemon) (running : M → Bool) (w : World M)
    (hctl : Controlled env d running)
    (hinst : (w.fs d.servicePath).isSome = true)
    (hstopped : running w.mgr = false)
    (hlog : (Daemon.configLogFile env d w).1 = none) :
    let s1 := Daemon.Start env d w
    let s2 := Daemon.Start env d s1.2
    let s3 := Daemon.Stop env d s2.2
    let s4 := Daemon.Stop env d s3.2
    (s1.1 = none ∧ running s1.2.mgr = true) ∧
    ((∃ e, s2.1 = some e ∧ e.is Err.errAlreadyRunning = true) ∧
      Grows (isProbe d) s1.2 s2.2 ∧ running s2.2.mgr = true) ∧
    (s3.1 = none ∧ running s3.2.mgr = false) ∧
    ((∃ e, s4.1 = some e ∧ e.is Err.errAlreadyStopped = true) ∧
      Grows (isProbe d) s3.2 s4.2 ∧ running s4.2.mgr = false) := by
  intro s1 s2 s3 s4
  have h1 := start_from_stopped env d running w hctl hinst hstopped hlog
  have h2 := start_when_running env d running s1.2 hctl h1.2.2 h1.2.1
  have hinst2 : (s2.2.fs d.servicePath).isSome = true := by
    rw [h2.2.2.2]; exact h1.2.2
  have h3 := stop_from_running env d running s2.2 hctl hinst2 h2.2.2.1
  have hinst3 : (s3.2.fs d.servicePath).isSome = true := by
    rw [h3.2.2]; exact hinst2
  have h4 := stop_when_stopped env d running s3.2 hctl hinst3 h3.2.1
  exact ⟨⟨h1.1, h1.2.1⟩, ⟨h2.1, h2.2.1, h2.2.2.1⟩, ⟨h3.1, h3.2.1⟩, h4⟩

theorem scripted_controlled (blocked : List String) (k : Kind) :
    Controlled (scriptedEnv "0\n" psSystemd [] blocked) ⟨k, wrapOtherConfig⟩ (fun m => m) := by
  refine ⟨?_, ?_, ?_, ?_⟩
  · intro w
    exact ⟨rfl, rfl⟩
  · intro w
    obtain ⟨fs, m, lg, out⟩ := w
    cases k <;> cases m <;> exact ⟨rfl, rfl⟩
  · intro m hm
    cases k <;> exact ⟨rfl, rfl⟩
  · intro m hm
    cases k <;> exact ⟨rfl, rfl⟩

/-- C10, the claim at the sysv-style backend: a privileged caller, the artifact
`/etc/init.d/wrapother` installed, a controlled service that is stopped, but the log file
`/home/shgsec/wrapother.log` is missing and its directory cannot be made; `Start` returns
the error of `os.MkdirAll`, issues no start command, and the service stays stopped. -/
theorem systemv_start_log_setup_fails :
    Controlled (scriptedEnv "0\n" psSystemd [] ["/home/shgsec"])
      ⟨Kind.systemv, wrapOtherConfig⟩ (fun m => m) ∧
    ((worldOf [("/etc/init.d/wrapother", Node.file "")] false).fs
      (Daemon.servicePath ⟨Kind.systemv, wrapOtherConfig⟩)).isSome = true ∧
    (Daemon.Start (scriptedEnv "0\n" psSystemd [] ["/home/shgsec"])
      ⟨Kind.systemv, wrapOtherConfig⟩
      (worldOf [("/etc/init.d/wrapother", Node.file "")] false)).1 =
      some (Err.wrap "failed to start service" (Err.os "MkdirAll")) ∧
    (Daemon.Start (scriptedEnv "0\n" psSystemd [] ["/home/shgsec"])
      ⟨Kind.systemv, wrapOtherConfig⟩
      (worldOf [("/etc/init.d/wrapother", Node.file "")] false)).2.log =
      [Event.exec ["service", "wrapother", "status"] false,
        Event.mkdirAll "/home/shgsec" false] ∧
    (Daemon.Start (scriptedEnv "0\n" psSystemd [] ["/home/shgsec"])
      ⟨Kind.systemv, wrapOtherConfig⟩
      (worldOf [("/etc/init.d/wrapother", Node.file "")] false)).2.mgr = false := by
  refine ⟨scripted_controlled _ _, by decide, by decide, by decide, by decide⟩

theorem start_stop_cycle_witness :
    ((worldOf [("/etc/init.d/wrapother", Node.file ""),
        ("/home/shgsec/wrapother.log", Node.file "")] false).fs
      (Daemon.servicePath ⟨Kind.systemv, wrapOtherConfig⟩)).isSome = true ∧
    (Daemon.configLogFile (scriptedEnv "0\n" psSystemd [] []) ⟨Kind.systemv, wrapOtherConfig⟩
      (worldOf [("/etc/init.d/wrapother", Node.file ""),
        ("/home/shgsec/wrapother.log", Node.file "")] false)).1 = none ∧
    (Daemon.Start (scriptedEnv "0\n" psSystemd [] []) ⟨Kind.systemv, wrapOtherConfig⟩
      (worldOf [("/etc/init.d/wrapother", Node.file ""),
        ("/home/shgsec/wrapother.log", Node.file "")] false)).1 = none ∧
    (Daemon.Start (scriptedEnv "0\n" psSystemd [] []) ⟨Kind.systemv, wrapOtherConfig⟩
      (worldOf [("/etc/init.d/wrapother", Node.file ""),
        ("/home/shgsec/wrapother.log", Node.file "")] false)).2.mgr = true :=
  ⟨by decide, by decide,
    (start_stop_cycle (scriptedEnv "0\n" psSystemd [] []) ⟨Kind.systemv, wrapOtherConfig⟩
      (fun m => m)
      (worldOf [("/etc/init.d/wrapother", Node.file ""),
        ("/home/shgsec/wrapother.log", Node.file "")] false)
      (scripted_controlled [] Kind.systemv) (by decide) rfl (by decide)).1⟩


/-! ## Status (C9) -/

theorem findString_mem (alts : List String) (s : String) :
    findString alts s = "" ∨ findString alts s ∈ alts := by
  unfold findString
  split
  · rename_i a ha
    have hm := findAlt_mem _ _ _ ha
    obtain ⟨x, hx, hxa⟩ := List.mem_map.mp hm
    right
    rw [← hxa]
    exact hx
  · left; rfl

/-- C9, as the code has it, when the guards pass (artifact present; caller privileged for
the unit-based and the supervisor-based backend, which probe it).  The unit-based `Status`
returns nil and prints exactly one line: running with pid, running, or stopped.  The
supervisor-based `Status` returns nil, and prints exactly one of the four status lines
whenever the status command fails or its output holds one of STARTING, RUNNING, STOPPED.
The sysv-style `Status` prints `service has stopped` and returns nil when the status
command fails; when it succeeds it prints running with or without pid if the service name,
as a regular expression, matches the output, prints the output itself if it does not
match, and returns an error, printing nothing, if the name is not a valid expression. -/
theorem status_outcome (env : Env M) (c : config) (w : World M) :
    ((checkPrivileges env w).1 = none → (w.fs (systemd.servicePath c)).isSome = true →
      (Daemon.Status env ⟨Kind.systemd, c⟩ w).1 = none ∧
      ∃ line, (Daemon.Status env ⟨Kind.systemd, c⟩ w).2.out = w.out ++ [line] ∧
        ((∃ pid, line = "Service (pid " ++ pid ++ ") is running") ∨
          line = "Service is running" ∨ line = "Service has stopped")) ∧
    ((checkPrivileges env w).1 = none → (w.fs (supervisord.servicePath c)).isSome = true →
      (Daemon.Status env ⟨Kind.supervisord, c⟩ w).1 = none ∧
      ((run env (supervisord.statusCmd c) (checkPrivileges env w).2).1.1 = false ∨
        findString ["STARTING", "RUNNING", "STOPPED"]
          (run env (supervisord.statusCmd c) (checkPrivileges env w).2).1.2 ≠ "" →
        ∃ line, (Daemon.Status env ⟨Kind.supervisord, c⟩ w).2.out = w.out ++ [line] ∧
          isStatusLine line)) ∧
    ((w.fs (systemv.servicePath c)).isSome = true →
      ((run env (systemv.statusCmd c) w).1.1 = false →
        (Daemon.Status env ⟨Kind.systemv, c⟩ w).1 = none ∧
        (Daemon.Status env ⟨Kind.systemv, c⟩ w).2.out = w.out ++ ["service has stopped"]) ∧
      ((run env (systemv.statusCmd c) w).1.1 = true →
        env.reMatch c.Name (run env (systemv.statusCmd c) w).1.2 = some true →
        (Daemon.Status env ⟨Kind.systemv, c⟩ w).1 = none ∧
        ∃ line, (Daemon.Status env ⟨Kind.systemv, c⟩ w).2.out = w.out ++ [line] ∧
          ((∃ pid, line = "service (pid " ++ pid ++ ") is running") ∨
            line = "service is running")) ∧
      ((run env (systemv.statusCmd c) w).1.1 = true →
        env.reMatch c.Name (run env (systemv.statusCmd c) w).1.2 = some false →
        (Daemon.Status env ⟨Kind.systemv, c⟩ w).1 = none ∧
        (Daemon.Status env ⟨Kind.systemv, c⟩ w).2.out =
          w.out ++ [(run env (systemv.statusCmd c) w).1.2]) ∧
      ((run env (systemv.statusCmd c) w).1.1 = true →
        env.reMatch c.Name (run env (systemv.statusCmd c) w).1.2 = none →
        (Daemon.Status env ⟨Kind.systemv, c⟩ w).1 =
          some (Err.wrap "failed to show service's status" (Err.os "regexp")) ∧
        (Daemon.Status env ⟨Kind.systemv, c⟩ w).2.out = w.out)) := by
  have hfs := checkPrivileges_fs env w
  have hout := checkPrivileges_out env w
  refine ⟨?_, ?_, ?_⟩
  · intro hpriv hinst
    have hi : systemd.isInstalled c (checkPrivileges env w).2 = true := by
      simpa [systemd.isInstalled, hfs] using hinst
    simp only [Daemon.Status, systemd.Status, hpriv, hi, if_true]
    split
    · split
      · rename_i pid _
        exact ⟨rfl, _, by rw [println_out, run_out, hout], Or.inl ⟨pid, rfl⟩⟩
      · exact ⟨rfl, _, by rw [println_out, run_out, hout], Or.inr (Or.inl rfl)⟩
    · exact ⟨rfl, _, by rw [println_out, run_out, hout], Or.inr (Or.inr rfl)⟩
  · intro hpriv hinst
    have hi : supervisord.isInstalled c (checkPrivileges env w).2 = true := by
      simpa [supervisord.isInstalled, hfs] using hinst
    simp only [Daemon.Status, supervisord.Status, hpriv, hi, if_true]
    split
    · rename_i hok
      split
      · exact ⟨rfl, fun _ => ⟨_, by rw [println_out, run_out, hout], Or.inl rfl⟩⟩
      · split
        · split
          · rename_i pid _
            exact ⟨rfl, fun _ => ⟨_, by rw [println_out, run_out, hout],
              Or.inr (Or.inl ⟨pid, rfl⟩)⟩⟩
          · exact ⟨rfl, fun _ => ⟨_, by rw [println_out, run_out, hout],
              Or.inr (Or.inr (Or.inl rfl))⟩⟩
        · split
          · exact ⟨rfl, fun _ => ⟨_, by rw [println_out, run_out, hout],
              Or.inr (Or.inr (Or.inr rfl))⟩⟩
          · rename_i h1 h2 h3
            refine ⟨rfl, fun h => ?_⟩
            exfalso
            rcases h with h | h
            · rw [hok] at h
              exact Bool.noConfusion h
            · rcases findString_mem ["STARTING", "RUNNING", "STOPPED"]
                (run env (supervisord.statusCmd c) (checkPrivileges env w).2).1.2 with hm | hm
              · exact h hm
              · simp only [List.mem_cons, List.mem_singleton, List.not_mem_nil, or_false] at hm
                rcases hm with hm | hm | hm
                · exact h1 hm
                · exact h2 hm
                · exact h3 hm
    · exact ⟨rfl, fun _ => ⟨_, by rw [println_out, run_out, hout],
        Or.inr (Or.inr (Or.inr rfl))⟩⟩
  · intro hinst
    have hi : systemv.isInstalled c w = true := by
      simpa [systemv.isInstalled] using hinst
    refine ⟨?_, ?_, ?_, ?_⟩
    · intro hr
      simp only [Daemon.Status, systemv.Status, hi, if_true, hr, Bool.false_eq_true, if_false,
        println_out, run_out, and_self]
    · intro hr hm
      simp only [Daemon.Status, systemv.Status, hi, if_true, hr, hm]
      split
      · rename_i pid _
        exact ⟨rfl, _, by rw [println_out, run_out], Or.inl ⟨pid, rfl⟩⟩
      · exact ⟨rfl, _, by rw [println_out, run_out], Or.inr rfl⟩
    · intro hr hm
      simp only [Daemon.Status, systemv.Status, hi, if_true, hr, hm, println_out, run_out,
        and_self]
    · intro hr hm
      simp only [Daemon.Status, systemv.Status, hi, if_true, hr, hm, wrapErr, run_out,
        and_self]


/-- C9, the claim at the supervisor-based and the sysv-style backend, guards passing.
`supervisorctl status wrapother` succeeds and reports FATAL: `Status` returns nil and
prints nothing.  `service wrapother status` succeeds with an output that does not name
the service: `Status` returns nil and prints that output, which is none of the four
statuses. -/
theorem status_not_one_of_four :
    ((checkPrivileges fatalEnv
        (worldOf [("/etc/supervisor/conf.d/wrapother.ini", Node.file "")] false)).1 = none ∧
      (Daemon.Status fatalEnv ⟨Kind.supervisord, wrapOtherConfig⟩
        (worldOf [("/etc/supervisor/conf.d/wrapother.ini", Node.file "")] false)).1 = none ∧
      (Daemon.Status fatalEnv ⟨Kind.supervisord, wrapOtherConfig⟩
        (worldOf [("/etc/supervisor/conf.d/wrapother.ini", Node.file "")] false)).2.out = []) ∧
    ((Daemon.Status unnamedStatusEnv ⟨Kind.systemv, wrapOtherConfig⟩
        (worldOf [("/etc/init.d/wrapother", Node.file "")] true)).1 = none ∧
      (Daemon.Status unnamedStatusEnv ⟨Kind.systemv, wrapOtherConfig⟩
        (worldOf [("/etc/init.d/wrapother", Node.file "")] true)).2.out = ["is running\n"]) := by
  refine ⟨⟨by decide, by decide, by decide⟩, by decide, by decide⟩

theorem status_outcome_witness :
    (checkPrivileges (scriptedEnv "0\n" psSystemd [] [])
      (worldOf [("/etc/systemd/system/wrapother.service", Node.file "")] true)).1 = none ∧
    ((worldOf [("/etc/systemd/system/wrapother.service", Node.file "")] true).fs
      (systemd.servicePath wrapOtherConfig)).isSome = true ∧
    (Daemon.Status (scriptedEnv "0\n" psSystemd [] []) ⟨Kind.systemd, wrapOtherConfig⟩
      (worldOf [("/etc/systemd/system/wrapother.service", Node.file "")] true)).1 = none ∧
    (Daemon.Status (scriptedEnv "0\n" psSystemd [] []) ⟨Kind.systemd, wrapOtherConfig⟩
      (worldOf [("/etc/systemd/system/wrapother.service", Node.file "")] true)).2.out =
      ["Service (pid 4242) is running"] :=
  ⟨by decide, by decide,
    ((status_outcome (scriptedEnv "0\n" psSystemd [] []) wrapOtherConfig
      (worldOf [("/etc/systemd/system/wrapother.service", Node.file "")] true)).1
      (by decide) (by decide)).1,
    by decide⟩


/-! ## Dependency substitution in the templates (C11) -/

theorem join_cons (s : String) (l : List String) :
    String.join (s :: l) = s ++ String.join l := by
  apply String.ext
  simp [String.join_eq, String.data_append]

theorem join_append (l1 l2 : List String) :
    String.join (l1 ++ l2) = String.join l1 ++ String.join l2 := by
  induction l1 with
  | nil => simp [String.join]
  | cons s t ih => rw [List.cons_append, join_cons, join_cons, ih, String.append_assoc]

/-- A joined list of segments, cut around the `j` segments that follow the first `i`. -/
theorem join_cut (l : List String) (i j : Nat) (mid : String)
    (h : String.join ((l.drop i).take j) = mid) :
    String.join l = String.join (l.take i) ++ mid ++ String.join ((l.drop i).drop j) := by
  rw [← h, String.append_assoc, ← join_append, ← join_append, List.take_append_drop,
    List.take_append_drop]

/-- The seven segments around a dependency list `d`, joined. -/
theorem join_deps_lines (a b d : String) :
    String.join ["\n", a, d, "\n", b, d, "\n"] =
      "\n" ++ a ++ d ++ "\n" ++ b ++ d ++ "\n" := by
  simp only [join_cons, String.append_assoc]
  simp [String.join]

/-- C11: for every Service Specification `c`, the rendered unit file holds the lines
`Requires=<d>` and `After=<d>`, one after the other, and the rendered init script holds
the lines `# Required-Start: <d>` and `# Required-Stop: <d>`, each starting after a line
break and ending in one, where `<d>` is the backend's default list when `c.Dependencies`
is empty and `c.Dependencies` itself, verbatim, when it is not. -/
theorem dependency_substitution (c : config) :
    (∃ pre post, systemdScript c =
      pre ++
        ("\n" ++ "Requires=" ++
          (if c.Dependencies = "" then
            "network-online.target local-fs.target time-sync.target nss-lookup.target"
          else c.Dependencies) ++
          "\n" ++ "After=" ++
          (if c.Dependencies = "" then
            "network-online.target local-fs.target time-sync.target nss-lookup.target"
          else c.Dependencies) ++ "\n") ++
        post) ∧
    (∃ pre post, systemvScript c =
      pre ++
        ("\n" ++ "# Required-Start: " ++
          (if c.Dependencies = "" then "$network $time $named $local_fs"
          else c.Dependencies) ++
          "\n" ++ "# Required-Stop: " ++
          (if c.Dependencies = "" then "$network $time $named $local_fs"
          else c.Dependencies) ++ "\n") ++
        post) := by
  refine ⟨?_, ?_⟩
  · unfold systemdScript
    exact ⟨_, _, join_cut _ 4 7 _ (join_deps_lines "Requires=" "After=" (systemdDeps c))⟩
  · unfold systemvScript
    exact ⟨_, _, join_cut _ 20 7 _
      (join_deps_lines "# Required-Start: " "# Required-Stop: " (systemvDeps c))⟩

set_option maxRecDepth 100000 in
theorem rendered_dependency_lines :
    matchLiteral "\nRequires=network-online.target local-fs.target time-sync.target nss-lookup.target\nAfter=network-online.target local-fs.target time-sync.target nss-lookup.target\n"
      (systemdScript wrapOtherConfig) = true ∧
    matchLiteral "\n# Required-Start: $network $time $named $local_fs\n# Required-Stop: $network $time $named $local_fs\n"
      (systemvScript wrapOtherConfig) = true ∧
    matchLiteral "\nRequires=mysql.service\nAfter=mysql.service\n"
      (systemdScript { wrapOtherConfig with Dependencies := "mysql.service" }) = true ∧
    matchLiteral "\n# Required-Start: $mysql\n# Required-Stop: $mysql\n"
      (systemvScript { wrapOtherConfig with Dependencies := "$mysql" }) = true := by
  refine ⟨by decide, by decide, by decide, by decide⟩


/-! ## Validation of the draft (C12) and the option algebra (C13) -/

/-- C12: `setupConfig` returns `errConfigIsNil` for the nil draft; for a draft whose `Exec`
is empty it returns `errMissExecValue` and leaves the draft as it was; otherwise it returns
nil, and the draft afterwards differs from the draft before only in `Name`, which is the
base name of `Exec` if it was empty, and in `WorkDir`, which is the directory of `Exec` if
it was empty; a non-empty `Name` or `WorkDir` and every other field are unchanged. -/
theorem setupConfig_validation (c : config) :
    setupConfig none = (some Err.errConfigIsNil, none) ∧
    (c.Exec = "" → setupConfig (some c) = (some Err.errMissExecValue, some c)) ∧
    (c.Exec ≠ "" →
      setupConfig (some c) =
        (none, some
          { c with
            Name := if c.Name = "" then pathBase c.Exec else c.Name
            WorkDir := if c.WorkDir = "" then pathDir c.Exec else c.WorkDir })) := by
  refine ⟨rfl, ?_, ?_⟩
  · intro h
    simp only [setupConfig, h, if_true]
  · intro h
    simp only [setupConfig, h, if_false]
    by_cases hn : c.Name = "" <;> by_cases hw : c.WorkDir = "" <;> simp [hn, hw]

theorem setupConfig_validation_witness :
    ({ wrapOtherConfig with Name := "", WorkDir := "" } : config).Exec ≠ "" ∧
    setupConfig (some { wrapOtherConfig with Name := "", WorkDir := "" }) =
      (none, some { wrapOtherConfig with Name := "wrapother", WorkDir := "/home/shgsec" }) :=
  ⟨by decide,
    ((setupConfig_validation { wrapOtherConfig with Name := "", WorkDir := "" }).2.2
      (by decide)).trans (by decide)⟩

/-- C13: for every draft `c` and every two options `o1`, `o2`: each option sets the field it
writes to its argument and leaves every other field as it was; when the two write different
fields, the loop of `New` gives the same draft in either order; when they write the same
field, the draft after both is the draft after the last one alone, so the field holds the
value of the option applied last. -/
theorem option_algebra (c : config) (o1 o2 : Configurator) :
    (o1.apply c).get o1.field = o1.value ∧
    (∀ f, f ≠ o1.field → (o1.apply c).get f = c.get f) ∧
    (o1.field ≠ o2.field → applyOptions [o1, o2] c = applyOptions [o2, o1] c) ∧
    (o1.field = o2.field →
      applyOptions [o1, o2] c = applyOptions [o2] c ∧
      (applyOptions [o1, o2] c).get o2.field = o2.value) := by
  refine ⟨?_, ?_, ?_, ?_⟩
  · cases o1 <;> rfl
  · intro f hf
    cases o1 <;> cases f <;> first | rfl | exact absurd rfl hf
  · intro h
    cases o1 <;> cases o2 <;> first | rfl | exact absurd rfl h
  · intro h
    cases o1 <;> cases o2 <;> first | exact ⟨rfl, rfl⟩ | exact nomatch h

theorem option_algebra_witness :
    (Configurator.WithName "a").field ≠ (Configurator.WithExec "/bin/b").field ∧
    applyOptions [Configurator.WithName "a", Configurator.WithExec "/bin/b"] wrapOtherConfig =
      applyOptions [Configurator.WithExec "/bin/b", Configurator.WithName "a"] wrapOtherConfig ∧
    (Configurator.WithName "a").field = (Configurator.WithName "z").field ∧
    (applyOptions [Configurator.WithName "a", Configurator.WithName "z"] wrapOtherConfig).Name =
      "z" :=
  ⟨by decide,
    (option_algebra wrapOtherConfig (Configurator.WithName "a")
      (Configurator.WithExec "/bin/b")).2.2.1 (by decide),
    by decide,
    ((option_algebra wrapOtherConfig (Configurator.WithName "a")
      (Configurator.WithName "z")).2.2.2 (by decide)).2⟩


/-! ## What Install does to the specification (C14) -/

theorem systemd_install_config (env : Env M) (c : config) (w : World M) :
    (systemd.Install env c w).2.1 = { c with Exec := (systemd.Install env c w).2.1.Exec } ∧
    ((systemd.Install env c w).2.1.Exec = c.Exec ∨
      ((executablePath env c.Exec (checkPrivileges env w).2).1.isOk = false ∧
        (systemd.Install env c w).2.1.Exec = "") ∨
      (executablePath env c.Exec (checkPrivileges env w).2).1 =
        Except.ok (systemd.Install env c w).2.1.Exec) := by
  unfold systemd.Install
  simp only []
  split
  · exact ⟨rfl, Or.inl rfl⟩
  · split
    · exact ⟨rfl, Or.inl rfl⟩
    · split
      · rename_i e hx
        exact ⟨rfl, Or.inr (Or.inl ⟨by rw [hx]; rfl, rfl⟩)⟩
      · rename_i exe hx
        repeat' split
        all_goals exact ⟨rfl, Or.inr (Or.inr hx)⟩

theorem systemv_install_config (env : Env M) (c : config) (w : World M) :
    (systemv.Install env c w).2.1 = { c with Exec := (systemv.Install env c w).2.1.Exec } ∧
    ((systemv.Install env c w).2.1.Exec = c.Exec ∨
      ((executablePath env c.Exec (checkPrivileges env w).2).1.isOk = false ∧
        (systemv.Install env c w).2.1.Exec = "") ∨
      (executablePath env c.Exec (checkPrivileges env w).2).1 =
        Except.ok (systemv.Install env c w).2.1.Exec) := by
  unfold systemv.Install
  simp only []
  split
  · exact ⟨rfl, Or.inl rfl⟩
  · split
    · exact ⟨rfl, Or.inl rfl⟩
    · split
      · rename_i e hx
        exact ⟨rfl, Or.inr (Or.inl ⟨by rw [hx]; rfl, rfl⟩)⟩
      · rename_i exe hx
        repeat' split
        all_goals exact ⟨rfl, Or.inr (Or.inr hx)⟩

theorem supervisord_install_config (env : Env M) (c : config) (w : World M) :
    (supervisord.Install env c w).2.1 =
      { c with Exec := (supervisord.Install env c w).2.1.Exec } ∧
    ((supervisord.Install env c w).2.1.Exec = c.Exec ∨
      ((executablePath env c.Exec (checkPrivileges env w).2).1.isOk = false ∧
        (supervisord.Install env c w).2.1.Exec = "") ∨
      (executablePath env c.Exec (checkPrivileges env w).2).1 =
        Except.ok (supervisord.Install env c w).2.1.Exec) := by
  unfold supervisord.Install
  simp only []
  split
  · exact ⟨rfl, Or.inl rfl⟩
  · split
    · exact ⟨rfl, Or.inl rfl⟩
    · split
      · rename_i e hx
        exact ⟨rfl, Or.inr (Or.inl ⟨by rw [hx]; rfl, rfl⟩)⟩
      · rename_i exe hx
        repeat' split
        all_goals exact ⟨rfl, Or.inr (Or.inr hx)⟩

/-- What holds of the specification after `Install`, for every backend: the backend and
every field other than `Exec` are as before; `Exec` is its value before the call (the run
ended before the lookup), or the result of `executablePath` on that value (the lookup
succeeded), or the empty string (the lookup failed). -/
theorem install_config_frame (env : Env M) (d : Daemon) (w : World M) :
    (Daemon.Install env d w).2.1.kind = d.kind ∧
    (Daemon.Install env d w).2.1.c =
      { d.c with Exec := (Daemon.Install env d w).2.1.c.Exec } ∧
    ((Daemon.Install env d w).2.1.c.Exec = d.c.Exec ∨
      ((executablePath env d.c.Exec (checkPrivileges env w).2).1.isOk = false ∧
        (Daemon.Install env d w).2.1.c.Exec = "") ∨
      (executablePath env d.c.Exec (checkPrivileges env w).2).1 =
        Except.ok (Daemon.Install env d w).2.1.c.Exec) := by
  obtain ⟨k, c⟩ := d
  cases k
  · exact ⟨rfl, supervisord_install_config env c w⟩
  · exact ⟨rfl, systemv_install_config env c w⟩
  · exact ⟨rfl, systemd_install_config env c w⟩

/-- C14, the code at the failing input: a privileged caller installs the wrap-other
service on a host where `/home/shgsec/wrapother` cannot be found.  For each backend
`Install` fails with the lookup error and leaves `Exec` empty: neither its value before the
call, `/home/shgsec/wrapother`, nor a resolved absolute path; the other fields are as
before. -/
theorem install_clobbers_exec :
    wrapOtherConfig.Exec = "/home/shgsec/wrapother" ∧
    (∀ k : Kind,
      (Daemon.Install noExecutableEnv ⟨k, wrapOtherConfig⟩ (worldOf [] false)).2.1.c =
        { wrapOtherConfig with Exec := "" } ∧
      ∃ e, (Daemon.Install noExecutableEnv ⟨k, wrapOtherConfig⟩ (worldOf [] false)).1 =
          some e ∧
        e.is (Err.os "LookPath") = true) := by
  refine ⟨by decide, ?_⟩
  intro k
  cases k
  · exact ⟨by decide, _, rfl, by decide⟩
  · exact ⟨by decide, _, rfl, by decide⟩
  · exact ⟨by decide, _, rfl, by decide⟩


/-! ## The log file of the supervisor-based backend (C15) -/

theorem supervisord_logFile_default (c : config) :
    supervisord.logFile c = defaultLogFile c.Name := by
  simp only [supervisord.logFile, supervisord.logPath, defaultLogFile, String.append_assoc]

theorem supervisordScript_stdout_logfile (c : config) :
    ∃ pre, supervisordScript c = pre ++ ("stdout_logfile=" ++ c.LogFile ++ "\n") := by
  unfold supervisordScript
  refine ⟨String.join
    [ "[program:", c.Name, "]\n",
      "directory=", c.WorkDir, "\n",
      "command=", c.Exec, " ", c.Args, "\n",
      "autostart=true\n",
      "autorestart=unexpected\n",
      "exitcodes=0\n",
      "redirect_stderr=true\n",
      "stdout_logfile_maxbytes=50MB\n",
      "stdout_logfile_backups=10\n" ], ?_⟩
  simp only [join_cons, String.append_assoc]
  simp [String.join]

set_option maxRecDepth 100000 in
/-- C15, the code at the failing input, the wrap-other specification: `configLogFile` of the
supervisor-based backend ensures `/var/log/wrapother/wrapother.log`, the path derived from
the name, while the rendered program block names the `LogFile` field,
`stdout_logfile=/home/shgsec/wrapother.log`.  After a successful `Install` on an empty
file system the first file exists and the second does not. -/
theorem supervisord_log_file_mismatch :
    supervisord.logFile wrapOtherConfig = "/var/log/wrapother/wrapother.log" ∧
    matchLiteral "\nstdout_logfile=/home/shgsec/wrapother.log\n"
      (supervisordScript wrapOtherConfig) = true ∧
    matchLiteral "/var/log/wrapother/wrapother.log" (supervisordScript wrapOtherConfig) =
      false ∧
    (Daemon.Install (scriptedEnv "0\n" psSystemd [] []) ⟨Kind.supervisord, wrapOtherConfig⟩
      (worldOf [] false)).1 = none ∧
    ((Daemon.Install (scriptedEnv "0\n" psSystemd [] []) ⟨Kind.supervisord, wrapOtherConfig⟩
      (worldOf [] false)).2.2.fs "/var/log/wrapother/wrapother.log").isSome = true ∧
    (Daemon.Install (scriptedEnv "0\n" psSystemd [] []) ⟨Kind.supervisord, wrapOtherConfig⟩
      (worldOf [] false)).2.2.fs "/home/shgsec/wrapother.log" = none ∧
    (Daemon.Install (scriptedEnv "0\n" psSystemd [] []) ⟨Kind.supervisord, wrapOtherConfig⟩
      (worldOf [] false)).2.2.fs "/etc/supervisor/conf.d/wrapother.ini" =
      some (Node.file (supervisordScript wrapOtherConfig)) := by
  refine ⟨by decide, by decide, by decide, by decide, by decide, by decide, by decide⟩

end GoDaemon
